import Mathlib

/-!
# panda_hw_gazebo: kinematic-chain registry, state aggregation and rate-gated publishing

Shallow embedding of `src/panda_hw_gazebo.cpp` (class `PandaRobotHWSim`).

Conventions of the embedding

* `double` values are only moved around by the code under study (the single piece of
  arithmetic, Eigen's quaternion-to-matrix conversion, uses `+ - *` only), so they are
  modelled by exact rationals.
* `std::array<double, n>` is `Arr n`, a total function on `Fin n`; indexing it with a
  machine index that is out of range is undefined behaviour in C++ and is `none` here.
* `std::vector<double>` and `KDL::JntArray` are lists; an out-of-range access is `none`.
* `std::map<std::string, Kinematics>` is an association list.  The only loop over the map
  acts on the entry whose key equals `tip_name_`, so the iteration order is not observable.
* The KDL tree, the KDL solvers and the URDF parser are collaborators whose code is not
  part of the translation unit; they are parameters (`Tree`, `External`).
-/

namespace PandaHwGazebo

/-! ## Containers -/

/-- Fixed-size array of doubles, `std::array<double, n>`. -/
abbrev Arr (n : Nat) := Fin n → ℚ

/-- Element read `a[i]` of a fixed-size array; `none` when `i` is out of range. -/
def Arr.read {n : Nat} (a : Arr n) (i : Nat) : Option ℚ :=
  if h : i < n then some (a ⟨i, h⟩) else none

/-- Element write `a[i] = v` of a fixed-size array; `none` when `i` is out of range. -/
def Arr.write {n : Nat} (a : Arr n) (i : Nat) (v : ℚ) : Option (Arr n) :=
  if h : i < n then some (Function.update a ⟨i, h⟩ v) else none

/-- Element write `v[i] = x` of a dynamically sized vector; `none` when out of range. -/
def vecWrite (v : List ℚ) (i : Nat) (x : ℚ) : Option (List ℚ) :=
  if i < v.length then some (v.set i x) else none

/-! ## KDL data (shape only) -/

/-- The part of `KDL::Joint` the code reads: `getName()` and `getTypeName()`. -/
structure Joint where
  name : String
  typeName : String
deriving DecidableEq, Repr

/-- The part of `KDL::Segment` the code reads: `getJoint()`. -/
structure Segment where
  joint : Joint
deriving DecidableEq, Repr

/-- The part of `KDL::Chain` the code reads: its segments (`getNrOfSegments`, `getSegment`)
and the joint count KDL keeps for it (`getNrOfJoints`). -/
structure Chain where
  segments : List Segment
  nrOfJoints : Nat
deriving DecidableEq, Repr

/-- Default-constructed `KDL::Chain`. -/
def Chain.empty : Chain := ⟨[], 0⟩

def Chain.getNrOfSegments (c : Chain) : Nat := c.segments.length

def Chain.getNrOfJoints (c : Chain) : Nat := c.nrOfJoints

/-- The tree provider `KDL::Tree`: `getChain(root, tip, chain)` either fills `chain`
(`some`) or reports that there is no such path (`none`). -/
structure Tree where
  getChain : String → String → Option Chain

/-- The struct `Kinematics` stored in the map: a chain and its actuated joint names. -/
structure Kinematics where
  chain : Chain
  joint_names : List String
deriving DecidableEq, Repr

/-- Default-constructed `Kinematics`. -/
def Kinematics.empty : Kinematics := ⟨Chain.empty, []⟩

/-- Modelled from the spec: the solver class `KDLMethods` is declared outside src/.  The spec
(ChainSolver) says it is bound to exactly one chain at construction (`initialise`) and keeps
no other state, every solve being a function of the bound chain and the joint values. -/
structure KDLMethods where
  chain_ : Chain
deriving DecidableEq, Repr

/-- The call `kdl_->initialise(chain)` on a fresh solver. -/
def KDLMethods.initialise (chain : Chain) : KDLMethods := ⟨chain⟩

/-! ## The map from tip name to `Kinematics` -/

abbrev ChainMap := List (String × Kinematics)

/-- Lookup `m.find(k)`; `none` stands for `m.end()`. -/
def ChainMap.find : ChainMap → String → Option Kinematics
  | [], _ => none
  | (k0, v) :: rest, k => if k0 = k then some v else ChainMap.find rest k

/-- Insertion `m.insert(make_pair(k, v))`: a map never overwrites an existing key. -/
def ChainMap.insert (m : ChainMap) (k : String) (v : Kinematics) : ChainMap :=
  match ChainMap.find m k with
  | some _ => m
  | none => m ++ [(k, v)]

/-- Indexing `m[k]`: returns the mapped value, default-inserting it when the key is absent. -/
def ChainMap.index (m : ChainMap) (k : String) : Kinematics × ChainMap :=
  match ChainMap.find m k with
  | some v => (v, m)
  | none => (Kinematics.empty, m ++ [(k, Kinematics.empty)])

/-- Number of entries stored under a key. -/
def ChainMap.countKey (m : ChainMap) (k : String) : Nat :=
  m.countP (fun e => decide (e.1 = k))

/-! ## Messages and the robot state -/

/-- The fields of `franka::RobotState` that the code names. -/
structure RobotState where
  q : Arr 7
  dq : Arr 7
  tau_J : Arr 7
  O_T_EE : Arr 16
  q_d : Arr 7
  dq_d : Arr 7
  ddq_d : Arr 7
  dtau_J : Arr 7
  tau_J_d : Arr 7
  theta : Arr 7
  dtheta : Arr 7
  joint_collision : Arr 7
  joint_contact : Arr 7
  tau_ext_hat_filtered : Arr 7

/-- The fields of the outgoing message `franka_msgs::FrankaState` that the code names. -/
structure FrankaState where
  q : Arr 7
  dq : Arr 7
  tau_J : Arr 7
  O_T_EE : Arr 16
  q_d : Arr 7
  dq_d : Arr 7
  ddq_d : Arr 7
  dtau_J : Arr 7
  tau_J_d : Arr 7
  theta : Arr 7
  dtheta : Arr 7
  joint_collision : Arr 7
  joint_contact : Arr 7
  tau_ext_hat_filtered : Arr 7

/-! ## Rate trigger and realtime publisher (library classes) -/

/-- The library class `franka_hw::TriggerRate`: a period in seconds and the time stamp of
the last firing.  Times are seconds.  The period is the double `1.0 / rate`, which is
infinite for a zero rate, hence the top element. -/
structure TriggerRate where
  period_ : WithTop ℚ
  time_stamp_ : ℚ
deriving DecidableEq

/-- Constructor `TriggerRate(rate)` evaluated at clock reading `now`: the period is
`1.0 / rate`, infinite when the rate is zero. -/
def TriggerRate.mk_rate (rate : ℚ) (now : ℚ) : TriggerRate :=
  ⟨if rate = 0 then ⊤ else ((1 / rate : ℚ) : WithTop ℚ), now⟩

/-- The call operator `rate_trigger_()` at clock reading `now`: fires, and stamps itself,
when more than a period has elapsed since the stored stamp.  The two clock readings the
operator takes (one to compare, one to stamp) are the same reading here. -/
def TriggerRate.call (t : TriggerRate) (now : ℚ) : Bool × TriggerRate :=
  if ((now - t.time_stamp_ : ℚ) : WithTop ℚ) > t.period_ then
    (true, { t with time_stamp_ := now })
  else (false, t)

/-- Whose turn it is to touch the message of a `realtime_tools::RealtimePublisher`. -/
inductive Turn where
  | REALTIME
  | NON_REALTIME
deriving DecidableEq, Repr

/-- The library class `realtime_tools::RealtimePublisher<FrankaState>` as seen from the
realtime side: the message, the turn flag, and whether the message mutex is currently held by
the publishing thread. -/
structure RealtimePublisher where
  msg_ : FrankaState
  turn_ : Turn
  held_by_consumer : Bool

/-- Whether `trylock()` succeeds: the mutex is free and it is the realtime side's turn. -/
def RealtimePublisher.trylock (p : RealtimePublisher) : Bool :=
  !p.held_by_consumer && decide (p.turn_ = Turn.REALTIME)

/-- The call `unlockAndPublish()`: hands the message to the publishing thread. -/
def RealtimePublisher.unlockAndPublish (p : RealtimePublisher) : RealtimePublisher :=
  { p with turn_ := Turn.NON_REALTIME }

/-- The publishing thread has sent the message and given the buffer back. -/
def RealtimePublisher.release (p : RealtimePublisher) : RealtimePublisher :=
  { p with turn_ := Turn.REALTIME, held_by_consumer := false }

/-! ## Geometry -/

/-- A `KDL::Frame`: rotation (nine entries) and position. -/
structure Frame where
  M : Fin 9 → ℚ
  p : Fin 3 → ℚ

structure Point where
  x : ℚ
  y : ℚ
  z : ℚ
deriving DecidableEq

structure Quaternion where
  x : ℚ
  y : ℚ
  z : ℚ
  w : ℚ
deriving DecidableEq

/-- A `geometry_msgs::Pose`. -/
structure Pose where
  position : Point
  orientation : Quaternion
deriving DecidableEq

/-- Default-constructed `geometry_msgs::Pose`: every number is zero. -/
def Pose.default : Pose := ⟨⟨0, 0, 0⟩, ⟨0, 0, 0, 0⟩⟩

/-! ## The class state -/

/-- Collaborators whose code lies outside the translation unit.  Output buffers are sized by
the caller, so each solver result has the size of the buffer it was handed. -/
structure External where
  /-- The calls `robot_model_.initString(xml)` then `kdl_parser::treeFromUrdfModel`. -/
  treeFromUrdfModel : String → Bool × Tree
  /-- The call `PosFKJntToCart(q, p_out, seg_nr)` on a solver bound to a chain. -/
  PosFKJntToCart : Chain → List ℚ → Nat → Int × Frame
  /-- The conversion `tf::poseKDLToMsg`. -/
  poseKDLToMsg : Frame → Pose
  /-- The call `JacobianJntToJac(q, J)`: the storage of the 6 x n matrix `J.data`. -/
  JacobianJntToJac : Chain → List ℚ → (n : Nat) → Arr (6 * n)
  /-- The call `JntToCoriolis(q, dq, C)`. -/
  JntToCoriolis : Chain → List ℚ → List ℚ → (n : Nat) → Arr n
  /-- The call `JntToGravity(q, G)`. -/
  JntToGravity : Chain → List ℚ → (n : Nat) → Arr n
  /-- The call `JntToMass(q, H)`: the storage of the n x n matrix `H.data`. -/
  JntToMass : Chain → List ℚ → (n : Nat) → Arr (n * n)

/-- Parameters on the node handle that the code asks for. -/
structure NodeHandle where
  publish_rate : Option ℚ
  mass_calculation_needed : Option Bool
  coriolis_calculation_needed : Option Bool
  gravity_calculation_needed : Option Bool
  robot_state_needed : Option Bool
  robot_description : Option String
  root_name : Option String
  tip_name : Option String

/-- Member variables of `PandaRobotHWSim` (with the joint buffers of its base class).  The
model arrays have the sizes of the Panda arm they are declared for: `robot_state_.q` and
`mass_matrix_` are mapped as 7 and 7 x 7 by `updateMassMatrixModel`, the Jacobian is 6 x 7,
gravity and Coriolis have one entry per joint.  `kdl_` is a raw pointer, `none` until
`createKinematicChain` first succeeds. -/
structure PandaRobotHWSim where
  joint_position_ : List ℚ
  joint_velocity_ : List ℚ
  joint_effort_ : List ℚ
  robot_state_ : RobotState
  jacobian_ : Arr 42
  gravity_ : Arr 7
  coriolis_ : Arr 7
  mass_matrix_ : Arr 49
  rate_trigger_ : TriggerRate
  publisher_franka_states_ : RealtimePublisher
  mass_calculation_needed : Bool
  coriolis_calculation_needed : Bool
  gravity_calculation_needed : Bool
  robot_state_needed : Bool
  root_name_ : String
  tip_name_ : String
  tree_ : Tree
  kinematic_chain_map_ : ChainMap
  kdl_ : Option KDLMethods
  num_jnts : Nat

/-! ## createKinematicChain -/

/-- The loop of `createKinematicChain` that saves the joint names: one step per segment, in
index order, skipping joints whose type name is "None", "Unknown" or "Fixed". -/
def saveJointNames (segments : List Segment) : List String :=
  segments.foldl
    (fun joint_names seg =>
      if seg.joint.typeName = "None" ∨ seg.joint.typeName = "Unknown"
          ∨ seg.joint.typeName = "Fixed" then joint_names
      else joint_names ++ [seg.joint.name])
    []

/-- The method `createKinematicChain(tip_name)`: the returned flag and the state after. -/
def createKinematicChain (s : PandaRobotHWSim) (tip_name : String) :
    Bool × PandaRobotHWSim :=
  match ChainMap.find s.kinematic_chain_map_ tip_name with
  | some _ => (false, s)
  | none =>
    match s.tree_.getChain s.root_name_ tip_name with
    | none => (false, s)
    | some chain =>
      let kin : Kinematics := ⟨chain, saveJointNames chain.segments⟩
      (true, { s with
        kdl_ := some (KDLMethods.initialise kin.chain)
        kinematic_chain_map_ := ChainMap.insert s.kinematic_chain_map_ tip_name kin })

/-! ## initKDL and initSim -/

/-- The method `initKDL(nh)`: the returned flag and the state after. -/
def initKDL (ext : External) (s : PandaRobotHWSim) (nh : NodeHandle) :
    Bool × PandaRobotHWSim :=
  match nh.robot_description with
  | none => (false, s)
  | some urdf_xml =>
    let s1 := { s with root_name_ := nh.root_name.getD "panda_link0" }
    let s2 := { s1 with tip_name_ := nh.tip_name.getD "panda_link7" }
    let parsed := ext.treeFromUrdfModel urdf_xml
    let s3 := { s2 with tree_ := parsed.2 }
    if !parsed.1 then (false, s3)
    else
      let r := createKinematicChain s3 s3.tip_name_
      if !r.1 then (false, r.2) else (true, r.2)

/-- The method `initSim(...)` at clock reading `now`, applied to the state the base-class
`initSim` and the handle registrations leave (they touch no member modelled here beyond
sizing the joint buffers; initialising the publisher leaves its message as it is).  Returns
the flag handed to the caller and the state after. -/
def initSim (ext : External) (s : PandaRobotHWSim) (model_nh : NodeHandle) (now : ℚ) :
    Bool × PandaRobotHWSim :=
  let publish_rate : ℚ := model_nh.publish_rate.getD 100
  let s1 := { s with rate_trigger_ := TriggerRate.mk_rate publish_rate now }
  let s2 := { s1 with
    mass_calculation_needed :=
      model_nh.mass_calculation_needed.getD s1.mass_calculation_needed
    coriolis_calculation_needed :=
      model_nh.coriolis_calculation_needed.getD s1.coriolis_calculation_needed
    gravity_calculation_needed :=
      model_nh.gravity_calculation_needed.getD s1.gravity_calculation_needed
    robot_state_needed := model_nh.robot_state_needed.getD s1.robot_state_needed }
  let r := initKDL ext s2 model_nh
  (true, r.2)

/-! ## Eigen pieces used by updateRobotStateJoints -/

abbrev Matrix3d := Matrix (Fin 3) (Fin 3) ℚ

abbrev Matrix4d := Matrix (Fin 4) (Fin 4) ℚ

/-- Eigen's `Quaternion::toRotationMatrix()`. -/
def Quaternion.toRotationMatrix (q : Quaternion) : Matrix3d :=
  let tx := 2 * q.x
  let ty := 2 * q.y
  let tz := 2 * q.z
  let twx := tx * q.w
  let twy := ty * q.w
  let twz := tz * q.w
  let txx := tx * q.x
  let txy := ty * q.x
  let txz := tz * q.x
  let tyy := ty * q.y
  let tyz := tz * q.y
  let tzz := tz * q.z
  !![1 - (tyy + tzz), txy - twz, txz + twy;
     txy + twz, 1 - (txx + tzz), tyz - twx;
     txz - twy, tyz + twx, 1 - (txx + tyy)]

/-- Assignment `Trans.block<3,3>(0,0) = m`. -/
def setBlock33 (Trans : Matrix4d) (m : Matrix3d) : Matrix4d :=
  fun r c => if h : r.val < 3 ∧ c.val < 3 then m ⟨r.val, h.1⟩ ⟨c.val, h.2⟩ else Trans r c

/-- Assignment `Trans.block<3,1>(0,3) = t`. -/
def setBlock31 (Trans : Matrix4d) (t : Fin 3 → ℚ) : Matrix4d :=
  fun r c => if h : r.val < 3 ∧ c.val = 3 then t ⟨r.val, h.1⟩ else Trans r c

/-- The storage `Trans.data()` of an `Eigen::Matrix4d`: Eigen's default storage order is
column-major, so the coefficient `(r, c)` lies at offset `r + 4 * c`. -/
def Matrix4d.data (Trans : Matrix4d) : Arr 16 :=
  fun k => Trans ⟨k.val % 4, Nat.mod_lt _ (by decide)⟩
    ⟨k.val / 4, Nat.div_lt_of_lt_mul k.isLt⟩

/-- Lines 193-205 of `updateRobotStateJoints`: the 16 doubles copied into `O_T_EE` for a
pose message. -/
def poseToO_T_EE (pose : Pose) : Arr 16 :=
  let q : Quaternion :=
    ⟨pose.orientation.x, pose.orientation.y, pose.orientation.z, pose.orientation.w⟩
  let m : Matrix3d := q.toRotationMatrix
  let t : Fin 3 → ℚ := ![pose.position.x, pose.position.y, pose.position.z]
  let Trans : Matrix4d := setBlock31 (setBlock33 (1 : Matrix4d) m) t
  Matrix4d.data Trans

/-! ## Per-cycle updates -/

/-- The method `computePositionFK(kin, jnt_pos, result)`: the returned flag and `result`
after the call.  It dereferences `kdl_`, which is undefined when no solver was created. -/
def computePositionFK (ext : External) (s : PandaRobotHWSim) (kin : Kinematics)
    (jnt_pos : List ℚ) (result : Pose) : Option (Bool × Pose) :=
  match s.kdl_ with
  | none => none
  | some kdl =>
    let r := ext.PosFKJntToCart kdl.chain_ jnt_pos kin.chain.getNrOfSegments
    if r.1 < 0 then some (false, result) else some (true, ext.poseKDLToMsg r.2)

/-- Local buffers and state arrays written by the joint loop. -/
structure JointBuffers where
  jnt_pos : List ℚ
  jnt_vel : List ℚ
  jnt_eff : List ℚ
  q : Arr 7
  dq : Arr 7
  tau_J : Arr 7

/-- One iteration of the joint loop (lines 175-181) at index `jnt_idx`. -/
def jointLoopBody (s : PandaRobotHWSim) (b : JointBuffers) (jnt_idx : Nat) :
    Option JointBuffers :=
  match s.joint_position_[jnt_idx]?, s.joint_velocity_[jnt_idx]?,
      s.joint_effort_[jnt_idx]? with
  | some p, some v, some e =>
    match vecWrite b.jnt_pos jnt_idx p, vecWrite b.jnt_vel jnt_idx v,
        vecWrite b.jnt_eff jnt_idx e, Arr.write b.q jnt_idx p, Arr.write b.dq jnt_idx v,
        Arr.write b.tau_J jnt_idx e with
    | some jp, some jv, some je, some q, some dq, some tau =>
      some ⟨jp, jv, je, q, dq, tau⟩
    | _, _, _, _, _, _ => none
  | _, _, _ => none

/-- The joint loop `for (jnt_idx = 0; jnt_idx < num_jnts; jnt_idx++)`. -/
def jointLoop (s : PandaRobotHWSim) (b : JointBuffers) : Option JointBuffers :=
  (List.range s.num_jnts).foldlM (jointLoopBody s) b

/-- One iteration of the loop over `kinematic_chain_map_` (lines 185-208). -/
def chainLoopBody (ext : External) (s : PandaRobotHWSim) (jnt_pos : List ℚ)
    (rs : RobotState) (chain : String × Kinematics) : Option RobotState :=
  if chain.1 = s.tip_name_ then
    match computePositionFK ext s chain.2 jnt_pos Pose.default with
    | none => none
    | some r => some { rs with O_T_EE := poseToO_T_EE r.2 }
  else some rs

/-- The method `updateRobotStateJoints(jnt_pos, jnt_vel, jnt_eff)`: the state after and the
three buffers after; `none` when an access is out of range or `kdl_` is dereferenced unset. -/
def updateRobotStateJoints (ext : External) (s : PandaRobotHWSim)
    (jnt_pos jnt_vel jnt_eff : List ℚ) :
    Option (PandaRobotHWSim × List ℚ × List ℚ × List ℚ) :=
  let b0 : JointBuffers :=
    ⟨List.replicate jnt_pos.length 0, List.replicate jnt_vel.length 0,
      List.replicate jnt_eff.length 0, s.robot_state_.q, s.robot_state_.dq,
      s.robot_state_.tau_J⟩
  match jointLoop s b0 with
  | none => none
  | some b =>
    let rs1 : RobotState := { s.robot_state_ with q := b.q, dq := b.dq, tau_J := b.tau_J }
    match s.kinematic_chain_map_.foldlM (chainLoopBody ext s b.jnt_pos) rs1 with
    | none => none
    | some rs2 => some ({ s with robot_state_ := rs2 }, b.jnt_pos, b.jnt_vel, b.jnt_eff)

/-- The loop `for (i = 0; i < count; i++) dst[i] = src(i)` between fixed-size storages. -/
def copyLoop {m n : Nat} (count : Nat) (src : Arr m) (dst : Arr n) : Option (Arr n) :=
  (List.range count).foldlM
    (fun d i => match Arr.read src i with
      | none => none
      | some x => Arr.write d i x)
    dst

/-- The method `updateCoriolisVec(jnt_pos, jnt_vel)`. -/
def updateCoriolisVec (ext : External) (s : PandaRobotHWSim) (jnt_pos jnt_vel : List ℚ) :
    Option PandaRobotHWSim :=
  match s.kdl_ with
  | none => none
  | some kdl =>
    let C := ext.JntToCoriolis kdl.chain_ jnt_pos jnt_vel s.num_jnts
    match copyLoop s.num_jnts C s.coriolis_ with
    | none => none
    | some c => some { s with coriolis_ := c }

/-- The method `updateGravityVec(jnt_pos)`. -/
def updateGravityVec (ext : External) (s : PandaRobotHWSim) (jnt_pos : List ℚ) :
    Option PandaRobotHWSim :=
  match s.kdl_ with
  | none => none
  | some kdl =>
    let G := ext.JntToGravity kdl.chain_ jnt_pos s.num_jnts
    match copyLoop s.num_jnts G s.gravity_ with
    | none => none
    | some g => some { s with gravity_ := g }

/-- The method `updateMassMatrixKDL(jnt_pos)`; the loop bound is `mass_matrix_.size()`. -/
def updateMassMatrixKDL (ext : External) (s : PandaRobotHWSim) (jnt_pos : List ℚ) :
    Option PandaRobotHWSim :=
  match s.kdl_ with
  | none => none
  | some kdl =>
    let H_vec := ext.JntToMass kdl.chain_ jnt_pos s.num_jnts
    match copyLoop 49 H_vec s.mass_matrix_ with
    | none => none
    | some m => some { s with mass_matrix_ := m }

/-- The method `updateJacobian(jnt_pos, jnt_vel)`; the loop bound is `jacobian_.size()`.
The product `ee_vel` is computed and dropped. -/
def updateJacobian (ext : External) (s : PandaRobotHWSim) (jnt_pos _jnt_vel : List ℚ) :
    Option PandaRobotHWSim :=
  match s.kdl_ with
  | none => none
  | some kdl =>
    let J_vec := ext.JacobianJntToJac kdl.chain_ jnt_pos s.num_jnts
    match copyLoop 42 J_vec s.jacobian_ with
    | none => none
    | some j => some { s with jacobian_ := j }

/-! ## publishRobotStateMsg and readSim -/

/-- The loop `for (i = 0; i < src.size(); i++) dst[i] = src[i]` between arrays of one size. -/
def copyAll {n : Nat} (src dst : Arr n) : Arr n :=
  (List.finRange n).foldl (fun d i => Function.update d i (src i)) dst

/-- The first loop of `publishRobotStateMsg` (lines 289-303): `q`, `dq` and `tau_J` are
written at each index. -/
def copyJointFields (rs : RobotState) (msg : FrankaState) : FrankaState :=
  (List.finRange 7).foldl
    (fun m i => { m with
      q := Function.update m.q i (rs.q i)
      dq := Function.update m.dq i (rs.dq i)
      tau_J := Function.update m.tau_J i (rs.tau_J i) })
    msg

/-- The method `publishRobotStateMsg()` at clock reading `now`.  The condition is
`rate_trigger_() && publisher_franka_states_.trylock()`: the trigger is called first and the
try-lock only when it fired. -/
def publishRobotStateMsg (s : PandaRobotHWSim) (now : ℚ) : PandaRobotHWSim :=
  let fired := s.rate_trigger_.call now
  let s1 := { s with rate_trigger_ := fired.2 }
  if fired.1 && s1.publisher_franka_states_.trylock then
    let msg1 := copyJointFields s1.robot_state_ s1.publisher_franka_states_.msg_
    let msg2 := { msg1 with O_T_EE := copyAll s1.robot_state_.O_T_EE msg1.O_T_EE }
    { s1 with publisher_franka_states_ :=
        RealtimePublisher.unlockAndPublish { s1.publisher_franka_states_ with msg_ := msg2 } }
  else s1

/-- The method `readSim(time, period)`.  The arguments `pos`, `vel`, `eff` are the contents
of the joint buffers after the base-class `readSim`, `now` is the clock reading. -/
def readSim (ext : External) (s : PandaRobotHWSim) (pos vel eff : List ℚ) (now : ℚ) :
    Option PandaRobotHWSim :=
  let s0 := { s with joint_position_ := pos, joint_velocity_ := vel, joint_effort_ := eff }
  let entry := ChainMap.index s0.kinematic_chain_map_ s0.tip_name_
  let s1 := { s0 with kinematic_chain_map_ := entry.2,
                      num_jnts := entry.1.chain.getNrOfJoints }
  let zeros : List ℚ := List.replicate s1.num_jnts 0
  match updateRobotStateJoints ext s1 zeros zeros zeros with
  | none => none
  | some (s2, jnt_pos, jnt_vel, _) =>
    match (if s2.robot_state_needed then updateJacobian ext s2 jnt_pos jnt_vel
           else some s2) with
    | none => none
    | some s3 =>
      match (if s3.coriolis_calculation_needed then updateCoriolisVec ext s3 jnt_pos jnt_vel
             else some s3) with
      | none => none
      | some s4 =>
        match (if s4.gravity_calculation_needed then updateGravityVec ext s4 jnt_pos
               else some s4) with
        | none => none
        | some s5 =>
          match (if s5.mass_calculation_needed then updateMassMatrixKDL ext s5 jnt_pos
                 else some s5) with
          | none => none
          | some s6 =>
            some (if s6.robot_state_needed then publishRobotStateMsg s6 now else s6)

/-! ## Concrete instances used to exercise the definitions -/

/-- Sequence of `createKinematicChain` calls, flags dropped. -/
def createAll (s : PandaRobotHWSim) (tips : List String) : PandaRobotHWSim :=
  tips.foldl (fun st tip => (createKinematicChain st tip).2) s

def zeroRobotState : RobotState :=
  ⟨0, 0, 0, 0, 0, 0, 0, 0, 0, 0, 0, 0, 0, 0⟩

def zeroFrankaState : FrankaState :=
  ⟨0, 0, 0, 0, 0, 0, 0, 0, 0, 0, 0, 0, 0, 0⟩

/-- A freshly constructed object over a given tree: zeroed arrays, an empty map, no solver,
a 100 Hz trigger stamped at time 0, a free publisher, all four flags set. -/
def freshSim (tree : Tree) : PandaRobotHWSim where
  joint_position_ := []
  joint_velocity_ := []
  joint_effort_ := []
  robot_state_ := zeroRobotState
  jacobian_ := 0
  gravity_ := 0
  coriolis_ := 0
  mass_matrix_ := 0
  rate_trigger_ := ⟨((1 / 100 : ℚ) : WithTop ℚ), 0⟩
  publisher_franka_states_ := ⟨zeroFrankaState, Turn.REALTIME, false⟩
  mass_calculation_needed := true
  coriolis_calculation_needed := true
  gravity_calculation_needed := true
  robot_state_needed := true
  root_name_ := "panda_link0"
  tip_name_ := "panda_link7"
  tree_ := tree
  kinematic_chain_map_ := []
  kdl_ := none
  num_jnts := 0

/-- A three-segment chain: a fixed mount, a revolute joint, a fixed flange. -/
def chainShort : Chain :=
  ⟨[⟨⟨"mount", "Fixed"⟩⟩, ⟨⟨"panda_joint1", "RotZ"⟩⟩, ⟨⟨"flange", "None"⟩⟩], 1⟩

/-- A seven-joint chain with a fixed segment in the middle. -/
def chainPanda : Chain :=
  ⟨[⟨⟨"panda_joint1", "RotZ"⟩⟩, ⟨⟨"panda_joint2", "RotZ"⟩⟩, ⟨⟨"panda_joint3", "RotZ"⟩⟩,
    ⟨⟨"spacer", "Fixed"⟩⟩, ⟨⟨"panda_joint4", "RotZ"⟩⟩, ⟨⟨"panda_joint5", "RotZ"⟩⟩,
    ⟨⟨"panda_joint6", "RotZ"⟩⟩, ⟨⟨"panda_joint7", "RotZ"⟩⟩], 7⟩

/-- A tree with two tips below `panda_link0`. -/
def twoTipTree : Tree :=
  ⟨fun root tip =>
    if root = "panda_link0" ∧ tip = "panda_link7" then some chainPanda
    else if root = "panda_link0" ∧ tip = "panda_link1" then some chainShort
    else none⟩

/-- The publishing thread gives the outgoing buffer back. -/
def releaseBuffer (s : PandaRobotHWSim) : PandaRobotHWSim :=
  { s with publisher_franka_states_ := s.publisher_franka_states_.release }

/-- A fresh object whose outgoing buffer is held by the publishing thread. -/
def contendedSim : PandaRobotHWSim :=
  { freshSim twoTipTree with
    publisher_franka_states_ := ⟨zeroFrankaState, Turn.REALTIME, true⟩ }

/-- A fresh object whose model arrays (Jacobian, gravity, Coriolis, mass) are all ones. -/
def onesModelSim : PandaRobotHWSim :=
  { freshSim twoTipTree with
    jacobian_ := fun _ => 1, gravity_ := fun _ => 1, coriolis_ := fun _ => 1,
    mass_matrix_ := fun _ => 1 }

/-- Collaborators for the examples: the description "panda" parses to `twoTipTree`, any other
one fails to parse; the forward solve succeeds exactly when the joint array has the size of
the bound chain and the segment number is in range, and yields a pure translation. -/
def demoExt : External where
  treeFromUrdfModel := fun xml =>
    if xml = "panda" then (true, twoTipTree) else (false, ⟨fun _ _ => none⟩)
  PosFKJntToCart := fun chain q seg_nr =>
    (if q.length = chain.nrOfJoints ∧ seg_nr ≤ chain.segments.length then 0 else -1,
      ⟨fun _ => 0, ![1, 2, 3]⟩)
  poseKDLToMsg := fun f => ⟨⟨f.p 0, f.p 1, f.p 2⟩, ⟨0, 0, 0, 1⟩⟩
  JacobianJntToJac := fun _ _ _ k => k.val
  JntToCoriolis := fun _ q dq _ i => q.sum + dq.sum + i.val
  JntToGravity := fun _ q _ i => 2 * q.sum + i.val
  JntToMass := fun _ q _ k => q.sum + 3 * k.val

/-- A node handle carrying no parameter at all. -/
def emptyNodeHandle : NodeHandle := ⟨none, none, none, none, none, none, none, none⟩

/-- A node handle whose robot description does not parse. -/
def brokenUrdfNodeHandle : NodeHandle :=
  { emptyNodeHandle with robot_description := some "garbage" }

/-- A node handle whose tip frame is not in the tree. -/
def noPathNodeHandle : NodeHandle :=
  { emptyNodeHandle with robot_description := some "panda", tip_name := some "nowhere" }

/-- A node handle with a parsable description and the default frames. -/
def pandaNodeHandle : NodeHandle :=
  { emptyNodeHandle with robot_description := some "panda" }

/-- The object after `initSim` with a parsable description and default frames. -/
def readySim : PandaRobotHWSim :=
  (initSim demoExt (freshSim twoTipTree) pandaNodeHandle 0).2

/-- The same, started with `robot_state_needed` set to false on the parameter server. -/
def quietSim : PandaRobotHWSim :=
  (initSim demoExt (freshSim twoTipTree)
    { pandaNodeHandle with robot_state_needed := some false } 0).2

/-- The object after `initSim` with the one-joint tip `panda_link1` configured and all four
flags set. -/
def shortSim : PandaRobotHWSim :=
  (initSim demoExt (freshSim twoTipTree)
    { pandaNodeHandle with tip_name := some "panda_link1" } 0).2

def samplePos : List ℚ := [1, 2, 3, 4, 5, 6, 7]

def sampleVel : List ℚ := [0, 0, 0, 0, 0, 0, 1]

def sampleEff : List ℚ := [7, 6, 5, 4, 3, 2, 1]

/-- The ready object inside a cycle: samples read, `num_jnts` set. -/
def cycleSim : PandaRobotHWSim :=
  { readySim with
    joint_position_ := samplePos, joint_velocity_ := sampleVel, joint_effort_ := sampleEff,
    num_jnts := 7 }

/-- A pose message: translation (1, 2, 3), identity orientation. -/
def samplePose : Pose := ⟨⟨1, 2, 3⟩, ⟨0, 0, 0, 1⟩⟩

/-- An object inside a cycle that holds a previously computed end-effector transform and
whose solver was rebound to the one-joint chain of `panda_link1`, so that the forward solve
for the seven-joint tip reports a size mismatch. -/
def staleSolverSim : PandaRobotHWSim :=
  { (createKinematicChain cycleSim "panda_link1").2 with
    robot_state_ := { zeroRobotState with O_T_EE := poseToO_T_EE samplePose } }

/-! ## Closed forms used to state what the loops compute -/

/-- The buffers after the first `k` iterations of the joint loop started on `b`. -/
def jointBuffersAfter (s : PandaRobotHWSim) (b : JointBuffers) (k : Nat) : JointBuffers :=
  ⟨s.joint_position_.take k ++ b.jnt_pos.drop k,
    s.joint_velocity_.take k ++ b.jnt_vel.drop k,
    s.joint_effort_.take k ++ b.jnt_eff.drop k,
    fun i => if i.val < k then s.joint_position_.getD i.val 0 else b.q i,
    fun i => if i.val < k then s.joint_velocity_.getD i.val 0 else b.dq i,
    fun i => if i.val < k then s.joint_effort_.getD i.val 0 else b.tau_J i⟩

/-- The destination after the first `k` iterations of `copyLoop`. -/
def copiedPrefix {m n : Nat} (k : Nat) (src : Arr m) (dst : Arr n) : Arr n :=
  fun i => if i.val < k then (Arr.read src i.val).getD (dst i) else dst i

/-- The pose that reaches the transform construction in the loop over the map: the pose
message of the solved frame, or the untouched default pose when the solve reports failure. -/
def tipPose (ext : External) (kdl : KDLMethods) (kin : Kinematics) (jnt_pos : List ℚ) :
    Pose :=
  if (ext.PosFKJntToCart kdl.chain_ jnt_pos kin.chain.getNrOfSegments).1 < 0 then Pose.default
  else ext.poseKDLToMsg (ext.PosFKJntToCart kdl.chain_ jnt_pos kin.chain.getNrOfSegments).2

/-- Invariant of the registry: each entry holds the chain the tree gives for its key, and
the one solver is bound to the chain of the entry created last. -/
def RegistryInv (s : PandaRobotHWSim) : Prop :=
  (∀ tip kin, ChainMap.find s.kinematic_chain_map_ tip = some kin →
      s.tree_.getChain s.root_name_ tip = some kin.chain
        ∧ kin.joint_names = saveJointNames kin.chain.segments)
    ∧ s.kdl_ = s.kinematic_chain_map_.getLast?.map
        (fun e => KDLMethods.initialise e.2.chain)

/-! # Theorems -/

/-! ## Lemmas on the map -/

theorem ChainMap.find_append_new (m : ChainMap) (k : String) (v : Kinematics)
    (h : ChainMap.find m k = none) : ChainMap.find (m ++ [(k, v)]) k = some v := by
  induction m with
  | nil => simp [ChainMap.find]
  | cons e rest ih =>
    obtain ⟨k0, v0⟩ := e
    by_cases hk : k0 = k
    · simp [ChainMap.find, hk] at h
    · simp only [ChainMap.find, hk, if_false] at h
      simp [ChainMap.find, hk, ih h]

theorem ChainMap.find_append_other (m : ChainMap) (k k2 : String) (v : Kinematics)
    (hne : k ≠ k2) : ChainMap.find (m ++ [(k, v)]) k2 = ChainMap.find m k2 := by
  induction m with
  | nil => simp [ChainMap.find, hne]
  | cons e rest ih =>
    obtain ⟨k0, v0⟩ := e
    by_cases hk : k0 = k2
    · simp [ChainMap.find, hk]
    · simp [ChainMap.find, hk, ih]

theorem ChainMap.countKey_of_find_none (m : ChainMap) (k : String)
    (h : ChainMap.find m k = none) : ChainMap.countKey m k = 0 := by
  induction m with
  | nil => simp [ChainMap.countKey]
  | cons e rest ih =>
    obtain ⟨k0, v0⟩ := e
    by_cases hk : k0 = k
    · simp [ChainMap.find, hk] at h
    · simp only [ChainMap.find, hk, if_false] at h
      have := ih h
      simp only [ChainMap.countKey] at this ⊢
      simp [List.countP_cons, hk, this]

/-- The state after a call that finds the tip unregistered and a path in the tree. -/
theorem createKinematicChain_new (s : PandaRobotHWSim) (tip : String) (chain : Chain)
    (hnew : ChainMap.find s.kinematic_chain_map_ tip = none)
    (hpath : s.tree_.getChain s.root_name_ tip = some chain) :
    createKinematicChain s tip =
      (true, { s with
        kdl_ := some (KDLMethods.initialise chain)
        kinematic_chain_map_ :=
          s.kinematic_chain_map_ ++ [(tip, ⟨chain, saveJointNames chain.segments⟩)] }) := by
  simp [createKinematicChain, hnew, hpath, ChainMap.insert]

/-- A call on a registered tip returns false and changes nothing. -/
theorem createKinematicChain_registered (s : PandaRobotHWSim) (tip : String)
    (kin : Kinematics) (h : ChainMap.find s.kinematic_chain_map_ tip = some kin) :
    createKinematicChain s tip = (false, s) := by
  simp [createKinematicChain, h]

/-- A successful call found the tip unregistered. -/
theorem createKinematicChain_true_new (s : PandaRobotHWSim) (tip : String)
    (h : (createKinematicChain s tip).1 = true) :
    ChainMap.find s.kinematic_chain_map_ tip = none := by
  cases hf : ChainMap.find s.kinematic_chain_map_ tip with
  | none => rfl
  | some kin => simp [createKinematicChain, hf] at h

/-- The joint-name loop computes a filter followed by a projection. -/
theorem saveJointNames_eq_filter (segments : List Segment) :
    saveJointNames segments =
      (segments.filter (fun seg => decide (¬ (seg.joint.typeName = "None"
        ∨ seg.joint.typeName = "Unknown" ∨ seg.joint.typeName = "Fixed")))).map
        (fun seg => seg.joint.name) := by
  have key : ∀ (acc : List String),
      segments.foldl
        (fun joint_names seg =>
          if seg.joint.typeName = "None" ∨ seg.joint.typeName = "Unknown"
              ∨ seg.joint.typeName = "Fixed" then joint_names
          else joint_names ++ [seg.joint.name]) acc =
      acc ++ (segments.filter (fun seg => decide (¬ (seg.joint.typeName = "None"
        ∨ seg.joint.typeName = "Unknown" ∨ seg.joint.typeName = "Fixed")))).map
        (fun seg => seg.joint.name) := by
    induction segments with
    | nil => intro acc; simp
    | cons seg rest ih =>
      intro acc
      by_cases h : seg.joint.typeName = "None" ∨ seg.joint.typeName = "Unknown"
          ∨ seg.joint.typeName = "Fixed"
      · rw [List.foldl_cons, if_pos h, ih, List.filter_cons_of_neg (by rw [decide_eq_true_eq]; exact not_not.mpr h)]
      · rw [List.foldl_cons, if_neg h, ih, List.filter_cons_of_pos (by rw [decide_eq_true_eq]; exact h)]
        simp
  simpa [saveJointNames] using key []

theorem ChainMap.not_mem_of_find_none (m : ChainMap) (k : String)
    (h : ChainMap.find m k = none) : k ∉ m.map Prod.fst := by
  induction m with
  | nil => simp
  | cons e rest ih =>
    obtain ⟨k0, v0⟩ := e
    by_cases hk : k0 = k
    · simp [ChainMap.find, hk] at h
    · simp only [ChainMap.find, hk, if_false] at h
      simp only [List.map_cons, List.mem_cons, not_or]
      exact ⟨fun hkk => hk hkk.symm, ih h⟩

/-- Keys stay distinct under `createKinematicChain`, as they are in a `std::map`. -/
theorem createKinematicChain_keys_nodup (s : PandaRobotHWSim) (tip : String)
    (h : (s.kinematic_chain_map_.map Prod.fst).Nodup) :
    ((createKinematicChain s tip).2.kinematic_chain_map_.map Prod.fst).Nodup := by
  cases hf : ChainMap.find s.kinematic_chain_map_ tip with
  | some kin => rw [createKinematicChain_registered s tip kin hf]; exact h
  | none =>
    cases hp : s.tree_.getChain s.root_name_ tip with
    | none =>
      have : createKinematicChain s tip = (false, s) := by
        simp [createKinematicChain, hf, hp]
      rw [this]; exact h
    | some chain =>
      rw [createKinematicChain_new s tip chain hf hp]
      have hnot := ChainMap.not_mem_of_find_none _ _ hf
      simp only [List.map_append, List.map_cons, List.map_nil]
      rw [List.nodup_append]
      refine ⟨h, List.nodup_singleton _, ?_⟩
      intro a ha hb
      simp only [List.mem_singleton] at hb
      subst hb
      exact hnot ha

/-! ## C7: actuated joint names -/

/-- C7: after a successful `createKinematicChain(tip)` on the chain the tree returns for
(root, tip), the entry stored under `tip` holds that chain, and its `joint_names` is the list
of joint names of the segments in root-to-tip order restricted to those whose joint type name
is none of "None", "Unknown", "Fixed"; it is a sublist of all segment joint names and its
length is the number of such segments. -/
theorem createKinematicChain_joint_names (s : PandaRobotHWSim) (tip : String) (chain : Chain)
    (hpath : s.tree_.getChain s.root_name_ tip = some chain)
    (hok : (createKinematicChain s tip).1 = true) :
    ∃ kin, ChainMap.find (createKinematicChain s tip).2.kinematic_chain_map_ tip = some kin
      ∧ kin.chain = chain
      ∧ kin.joint_names =
          (chain.segments.filter (fun seg => decide (seg.joint.typeName ≠ "None"
            ∧ seg.joint.typeName ≠ "Unknown" ∧ seg.joint.typeName ≠ "Fixed"))).map
            (fun seg => seg.joint.name)
      ∧ List.Sublist kin.joint_names (chain.segments.map (fun seg => seg.joint.name))
      ∧ kin.joint_names.length =
          chain.segments.countP (fun seg => decide (seg.joint.typeName ≠ "None"
            ∧ seg.joint.typeName ≠ "Unknown" ∧ seg.joint.typeName ≠ "Fixed")) := by
  have hnew := createKinematicChain_true_new s tip hok
  have hfilter : (fun seg : Segment => decide (seg.joint.typeName ≠ "None"
      ∧ seg.joint.typeName ≠ "Unknown" ∧ seg.joint.typeName ≠ "Fixed")) =
      (fun seg => decide (¬ (seg.joint.typeName = "None"
        ∨ seg.joint.typeName = "Unknown" ∨ seg.joint.typeName = "Fixed"))) := by
    funext seg
    simp only [ne_eq, not_or]
  refine ⟨⟨chain, saveJointNames chain.segments⟩, ?_, rfl, ?_, ?_, ?_⟩
  · rw [createKinematicChain_new s tip chain hnew hpath]
    exact ChainMap.find_append_new _ _ _ hnew
  · rw [hfilter]
    exact saveJointNames_eq_filter chain.segments
  · show List.Sublist (saveJointNames chain.segments) _
    rw [saveJointNames_eq_filter]
    exact List.Sublist.map _ (List.filter_sublist _)
  · show (saveJointNames chain.segments).length = _
    rw [saveJointNames_eq_filter, hfilter, List.length_map, List.countP_eq_length_filter]

/-- C7 exercised on the seven-joint chain of `twoTipTree`. -/
theorem createKinematicChain_joint_names_witness :
    (freshSim twoTipTree).tree_.getChain (freshSim twoTipTree).root_name_ "panda_link7"
        = some chainPanda
      ∧ (createKinematicChain (freshSim twoTipTree) "panda_link7").1 = true
      ∧ ∃ kin, ChainMap.find
          (createKinematicChain (freshSim twoTipTree) "panda_link7").2.kinematic_chain_map_
          "panda_link7" = some kin
        ∧ kin.chain = chainPanda
        ∧ kin.joint_names =
            (chainPanda.segments.filter (fun seg => decide (seg.joint.typeName ≠ "None"
              ∧ seg.joint.typeName ≠ "Unknown" ∧ seg.joint.typeName ≠ "Fixed"))).map
              (fun seg => seg.joint.name)
        ∧ List.Sublist kin.joint_names (chainPanda.segments.map (fun seg => seg.joint.name))
        ∧ kin.joint_names.length =
            chainPanda.segments.countP (fun seg => decide (seg.joint.typeName ≠ "None"
              ∧ seg.joint.typeName ≠ "Unknown" ∧ seg.joint.typeName ≠ "Fixed")) :=
  ⟨by decide, by decide,
    createKinematicChain_joint_names (freshSim twoTipTree) "panda_link7" chainPanda
      (by decide) (by decide)⟩

/-! ## C6: duplicate creation -/

/-- C6: for a tip that is not yet registered and for which the tree has a path from the
configured root, the first `createKinematicChain(tip)` returns true and adds exactly one
entry, stored under `tip` (the chain with its joint-name list), binding the solver to that
chain; the second `createKinematicChain(tip)` returns false and leaves the whole object, in
particular the map, the stored chain and joint names and the solver, as the first call left
it. -/
theorem createKinematicChain_duplicate_noop (s : PandaRobotHWSim) (tip : String)
    (chain : Chain)
    (hnew : ChainMap.find s.kinematic_chain_map_ tip = none)
    (hpath : s.tree_.getChain s.root_name_ tip = some chain) :
    (createKinematicChain s tip).1 = true
      ∧ (createKinematicChain s tip).2.kinematic_chain_map_ =
          s.kinematic_chain_map_ ++ [(tip, ⟨chain, saveJointNames chain.segments⟩)]
      ∧ ChainMap.countKey (createKinematicChain s tip).2.kinematic_chain_map_ tip = 1
      ∧ ChainMap.find (createKinematicChain s tip).2.kinematic_chain_map_ tip =
          some ⟨chain, saveJointNames chain.segments⟩
      ∧ (createKinematicChain s tip).2.kdl_ = some (KDLMethods.initialise chain)
      ∧ (createKinematicChain (createKinematicChain s tip).2 tip).1 = false
      ∧ (createKinematicChain (createKinematicChain s tip).2 tip).2 =
          (createKinematicChain s tip).2 := by
  have hfind : ChainMap.find
      (s.kinematic_chain_map_ ++ [(tip, (⟨chain, saveJointNames chain.segments⟩ : Kinematics))])
      tip = some ⟨chain, saveJointNames chain.segments⟩ :=
    ChainMap.find_append_new _ _ _ hnew
  have hcount : ChainMap.countKey
      (s.kinematic_chain_map_ ++ [(tip, (⟨chain, saveJointNames chain.segments⟩ : Kinematics))])
      tip = 1 := by
    have h0 := ChainMap.countKey_of_find_none _ _ hnew
    simp only [ChainMap.countKey] at h0 ⊢
    simp [List.countP_append, h0]
  rw [createKinematicChain_new s tip chain hnew hpath]
  refine ⟨rfl, rfl, hcount, hfind, rfl, ?_, ?_⟩
  · rw [createKinematicChain_registered _ tip _ hfind]
  · rw [createKinematicChain_registered _ tip _ hfind]

/-- C6 exercised on a fresh object and the tip `panda_link7` of `twoTipTree`. -/
theorem createKinematicChain_duplicate_noop_witness :
    ChainMap.find (freshSim twoTipTree).kinematic_chain_map_ "panda_link7" = none
      ∧ (createKinematicChain (freshSim twoTipTree) "panda_link7").1 = true
      ∧ (createKinematicChain
          (createKinematicChain (freshSim twoTipTree) "panda_link7").2 "panda_link7").1
          = false
      ∧ (createKinematicChain
          (createKinematicChain (freshSim twoTipTree) "panda_link7").2 "panda_link7").2
          = (createKinematicChain (freshSim twoTipTree) "panda_link7").2 :=
  have h := createKinematicChain_duplicate_noop (freshSim twoTipTree) "panda_link7"
    chainPanda (by decide) (by decide)
  ⟨by decide, h.1, h.2.2.2.2.2.1, h.2.2.2.2.2.2⟩

/-! ## C10: the solver of the registry -/

/-- Calls never change the tree or the root name. -/
theorem createKinematicChain_frame (s : PandaRobotHWSim) (tip : String) :
    (createKinematicChain s tip).2.tree_ = s.tree_
      ∧ (createKinematicChain s tip).2.root_name_ = s.root_name_ := by
  unfold createKinematicChain
  split
  · exact ⟨rfl, rfl⟩
  · split <;> exact ⟨rfl, rfl⟩

theorem RegistryInv_step (s : PandaRobotHWSim) (tip : String) (h : RegistryInv s) :
    RegistryInv (createKinematicChain s tip).2 := by
  cases hf : ChainMap.find s.kinematic_chain_map_ tip with
  | some kin => rw [createKinematicChain_registered s tip kin hf]; exact h
  | none =>
    cases hp : s.tree_.getChain s.root_name_ tip with
    | none =>
      have : createKinematicChain s tip = (false, s) := by
        simp [createKinematicChain, hf, hp]
      rw [this]; exact h
    | some chain =>
      rw [createKinematicChain_new s tip chain hf hp]
      refine ⟨?_, ?_⟩
      · intro t kin hk
        by_cases ht : tip = t
        · subst ht
          rw [ChainMap.find_append_new _ _ _ hf] at hk
          cases hk
          exact ⟨hp, rfl⟩
        · rw [ChainMap.find_append_other _ _ _ _ ht] at hk
          exact h.1 t kin hk
      · simp [KDLMethods.initialise]

theorem RegistryInv_createAll (tips : List String) :
    ∀ s : PandaRobotHWSim, RegistryInv s → RegistryInv (createAll s tips) := by
  induction tips with
  | nil => intro s h; exact h
  | cons tip rest ih =>
    intro s h
    exact ih _ (RegistryInv_step s tip h)

theorem createAll_frame (tips : List String) :
    ∀ s : PandaRobotHWSim, (createAll s tips).tree_ = s.tree_
      ∧ (createAll s tips).root_name_ = s.root_name_ := by
  induction tips with
  | nil => intro s; exact ⟨rfl, rfl⟩
  | cons tip rest ih =>
    intro s
    have h1 := ih (createKinematicChain s tip).2
    have h2 := createKinematicChain_frame s tip
    exact ⟨h1.1.trans h2.1, h1.2.trans h2.2⟩

/-- C10, as stated, fails: after creating `panda_link1` and then `panda_link7`, the entry of
`panda_link1` still holds its own chain, but the solver, bound to that chain after the first
call, is bound to the chain of `panda_link7` after the second. -/
theorem solver_rebound_by_later_tip :
    (createAll (freshSim twoTipTree) ["panda_link1"]).kdl_
        = some (KDLMethods.initialise chainShort)
      ∧ ChainMap.find
          (createAll (freshSim twoTipTree) ["panda_link1", "panda_link7"]).kinematic_chain_map_
          "panda_link1" = some ⟨chainShort, ["panda_joint1"]⟩
      ∧ (createAll (freshSim twoTipTree) ["panda_link1", "panda_link7"]).kdl_
        = some (KDLMethods.initialise chainPanda)
      ∧ chainShort ≠ chainPanda := by
  refine ⟨by decide, by decide, by decide, by decide⟩

/-- C10 (amended): in every state reached from an empty registry without solver by a sequence
of `createKinematicChain` calls, every registered tip keeps the chain the tree gives for it
(with the joint names saved from that chain), while the object has one solver, bound to the
chain of the entry created last; a forward-position solve requested for any stored
`Kinematics` runs on that last chain. -/
theorem registry_single_solver (s0 : PandaRobotHWSim) (tips : List String)
    (hmap : s0.kinematic_chain_map_ = []) (hkdl : s0.kdl_ = none) :
    (∀ tip kin, ChainMap.find (createAll s0 tips).kinematic_chain_map_ tip = some kin →
        s0.tree_.getChain s0.root_name_ tip = some kin.chain
          ∧ kin.joint_names = saveJointNames kin.chain.segments)
      ∧ (createAll s0 tips).kdl_ =
          (createAll s0 tips).kinematic_chain_map_.getLast?.map
            (fun e => KDLMethods.initialise e.2.chain)
      ∧ ∀ (ext : External) (kin : Kinematics) (jnt_pos : List ℚ) (result : Pose),
          computePositionFK ext (createAll s0 tips) kin jnt_pos result =
            (createAll s0 tips).kinematic_chain_map_.getLast?.map
              (fun e =>
                if (ext.PosFKJntToCart e.2.chain jnt_pos kin.chain.getNrOfSegments).1 < 0
                then (false, result)
                else (true, ext.poseKDLToMsg
                  (ext.PosFKJntToCart e.2.chain jnt_pos kin.chain.getNrOfSegments).2)) := by
  have h0 : RegistryInv s0 := by
    refine ⟨?_, ?_⟩
    · intro tip kin hk
      rw [hmap] at hk
      simp [ChainMap.find] at hk
    · rw [hmap, hkdl]; rfl
  have hinv := RegistryInv_createAll tips s0 h0
  have hfr := createAll_frame tips s0
  refine ⟨?_, hinv.2, ?_⟩
  · intro tip kin hk
    have := hinv.1 tip kin hk
    rw [hfr.1, hfr.2] at this
    exact this
  · intro ext kin jnt_pos result
    unfold computePositionFK
    rw [hinv.2]
    cases (createAll s0 tips).kinematic_chain_map_.getLast? with
    | none => rfl
    | some e =>
      simp only [Option.map_some', KDLMethods.initialise]
      split <;> rfl

/-- C10 (amended) exercised on the two tips of `twoTipTree`. -/
theorem registry_single_solver_witness :
    (freshSim twoTipTree).kinematic_chain_map_ = [] ∧ (freshSim twoTipTree).kdl_ = none
      ∧ (createAll (freshSim twoTipTree) ["panda_link1", "panda_link7"]).kdl_ =
          (createAll (freshSim twoTipTree)
            ["panda_link1", "panda_link7"]).kinematic_chain_map_.getLast?.map
            (fun e => KDLMethods.initialise e.2.chain) :=
  ⟨rfl, rfl,
    (registry_single_solver (freshSim twoTipTree) ["panda_link1", "panda_link7"] rfl rfl).2.1⟩

/-! ## C3: initialisation failures -/

/-- The flag `initSim` hands to its caller does not depend on anything. -/
theorem initSim_flag (ext : External) (s : PandaRobotHWSim) (model_nh : NodeHandle)
    (now : ℚ) : (initSim ext s model_nh now).1 = true := rfl

/-- C3: `initKDL` reports failure for a missing robot description, for a description from
which no tree can be extracted and for a tip frame without path from the root, and in each
of the three cases `initSim` nevertheless returns true to its caller. -/
theorem initSim_swallows_initKDL_failure :
    ((initKDL demoExt (freshSim twoTipTree) emptyNodeHandle).1 = false
        ∧ (initSim demoExt (freshSim twoTipTree) emptyNodeHandle 0).1 = true)
      ∧ ((initKDL demoExt (freshSim twoTipTree) brokenUrdfNodeHandle).1 = false
        ∧ (initSim demoExt (freshSim twoTipTree) brokenUrdfNodeHandle 0).1 = true)
      ∧ ((initKDL demoExt (freshSim twoTipTree) noPathNodeHandle).1 = false
        ∧ (createKinematicChain
            { freshSim twoTipTree with tip_name_ := "nowhere" } "nowhere").1 = false
        ∧ (initSim demoExt (freshSim twoTipTree) noPathNodeHandle 0).1 = true) := by
  refine ⟨⟨by decide, rfl⟩, ⟨by decide, rfl⟩, ⟨by decide, by decide, rfl⟩⟩

/-- Sanity check of the model: with a parsable description and the default frames `initKDL`
succeeds and registers the configured tip. -/
theorem initKDL_succeeds_on_panda :
    (initKDL demoExt (freshSim twoTipTree) pandaNodeHandle).1 = true
      ∧ ChainMap.find
          (initKDL demoExt (freshSim twoTipTree) pandaNodeHandle).2.kinematic_chain_map_
          "panda_link7" = some ⟨chainPanda, saveJointNames chainPanda.segments⟩ := by
  refine ⟨by decide, by decide⟩

/-! ## C1: publishing under buffer contention -/

/-- What `publishRobotStateMsg` does when the trigger fires and the try-lock fails. -/
theorem publishRobotStateMsg_contended (s : PandaRobotHWSim) (now : ℚ)
    (hfire : ((now - s.rate_trigger_.time_stamp_ : ℚ) : WithTop ℚ)
      > s.rate_trigger_.period_)
    (hbusy : s.publisher_franka_states_.trylock = false) :
    publishRobotStateMsg s now =
      { s with rate_trigger_ := { s.rate_trigger_ with time_stamp_ := now } } := by
  have hc : s.rate_trigger_.call now =
      (true, { s.rate_trigger_ with time_stamp_ := now }) := by
    simp only [TriggerRate.call, if_pos hfire]
  simp only [publishRobotStateMsg, hc, hbusy, Bool.and_false, Bool.false_eq_true, if_false]

/-- What `publishRobotStateMsg` does when the trigger does not fire. -/
theorem publishRobotStateMsg_gated (s : PandaRobotHWSim) (now : ℚ)
    (hwait : ((now - s.rate_trigger_.time_stamp_ : ℚ) : WithTop ℚ)
      ≤ s.rate_trigger_.period_) :
    publishRobotStateMsg s now = s := by
  have : ¬ ((now - s.rate_trigger_.time_stamp_ : ℚ) : WithTop ℚ) > s.rate_trigger_.period_ :=
    not_lt.mpr hwait
  have hc : s.rate_trigger_.call now = (false, s.rate_trigger_) := by
    simp only [TriggerRate.call, if_neg this]
  simp only [publishRobotStateMsg, hc, Bool.false_and, Bool.false_eq_true, if_false]

/-- Whatever the outcome of the try-lock, the trigger is left as its own call leaves it. -/
theorem publishRobotStateMsg_trigger (s : PandaRobotHWSim) (now : ℚ) :
    (publishRobotStateMsg s now).rate_trigger_ = (s.rate_trigger_.call now).2 := by
  simp only [publishRobotStateMsg]
  split <;> rfl

/-- A trigger built for a zero rate has an infinite period and never fires. -/
theorem TriggerRate.zero_rate_never_fires (stamp now : ℚ) :
    (TriggerRate.mk_rate 0 stamp).call now = (false, TriggerRate.mk_rate 0 stamp) := by
  simp [TriggerRate.mk_rate, TriggerRate.call]

/-- C1, as stated, fails: with a 10 ms period, a stamp of 0 and a buffer held by the
publishing thread, the call at 15 ms satisfies the gating condition, publishes nothing, and
moves the stamp from 0 to 15 ms; once the buffer is released, the call at 16 ms is refused
although 16 ms have elapsed since the original stamp. -/
theorem contended_publish_advances_stamp :
    (((15 / 1000 : ℚ) - contendedSim.rate_trigger_.time_stamp_ : ℚ) : WithTop ℚ)
        ≥ contendedSim.rate_trigger_.period_
      ∧ contendedSim.publisher_franka_states_.trylock = false
      ∧ contendedSim.rate_trigger_.time_stamp_ = 0
      ∧ (publishRobotStateMsg contendedSim (15 / 1000)).rate_trigger_.time_stamp_ = 15 / 1000
      ∧ (publishRobotStateMsg contendedSim (15 / 1000)).rate_trigger_.time_stamp_
          ≠ contendedSim.rate_trigger_.time_stamp_
      ∧ (((16 / 1000 : ℚ) - contendedSim.rate_trigger_.time_stamp_ : ℚ) : WithTop ℚ)
          ≥ contendedSim.rate_trigger_.period_
      ∧ (releaseBuffer (publishRobotStateMsg contendedSim (15 / 1000))).publisher_franka_states_.trylock
          = true
      ∧ (publishRobotStateMsg (releaseBuffer (publishRobotStateMsg contendedSim (15 / 1000)))
          (16 / 1000)).publisher_franka_states_.turn_ = Turn.REALTIME := by
  have hfire : (((15 / 1000 : ℚ) - contendedSim.rate_trigger_.time_stamp_ : ℚ) : WithTop ℚ)
      > contendedSim.rate_trigger_.period_ := by
    simp only [contendedSim, freshSim]; exact WithTop.coe_lt_coe.mpr (by norm_num)
  have hbusy : contendedSim.publisher_franka_states_.trylock = false := rfl
  have h1 := publishRobotStateMsg_contended contendedSim (15 / 1000) hfire hbusy
  have hwait : (((16 / 1000 : ℚ)
      - (releaseBuffer (publishRobotStateMsg contendedSim (15 / 1000))).rate_trigger_.time_stamp_
        : ℚ) : WithTop ℚ)
      ≤ (releaseBuffer (publishRobotStateMsg contendedSim (15 / 1000))).rate_trigger_.period_ := by
    rw [h1]
    simp only [releaseBuffer, contendedSim, freshSim]
    exact WithTop.coe_le_coe.mpr (by norm_num)
  have h2 := publishRobotStateMsg_gated _ (16 / 1000) hwait
  refine ⟨le_of_lt hfire, hbusy, rfl, ?_, ?_, ?_, ?_, ?_⟩
  · rw [h1]
  · rw [h1]
    simp only [contendedSim, freshSim]; norm_num
  · simp only [contendedSim, freshSim]; exact WithTop.coe_le_coe.mpr (by norm_num)
  · rw [h1]; rfl
  · rw [h2, h1]; rfl

/-- C1 (amended): when the rate trigger fires (more than a period has elapsed since its
stamp) and the non-blocking acquisition of the outgoing buffer fails, `publishRobotStateMsg`
publishes nothing (publisher, message and robot state are untouched), but the stamp of the
trigger is advanced to `now`, the trigger having been called before the try-lock; a call
that follows the release of the buffer within one period of `now` therefore does nothing. -/
theorem publish_contention_restamps (s : PandaRobotHWSim) (now : ℚ)
    (hfire : ((now - s.rate_trigger_.time_stamp_ : ℚ) : WithTop ℚ)
      > s.rate_trigger_.period_)
    (hbusy : s.publisher_franka_states_.trylock = false) :
    (publishRobotStateMsg s now).publisher_franka_states_ = s.publisher_franka_states_
      ∧ (publishRobotStateMsg s now).robot_state_ = s.robot_state_
      ∧ (publishRobotStateMsg s now).rate_trigger_.period_ = s.rate_trigger_.period_
      ∧ (publishRobotStateMsg s now).rate_trigger_.time_stamp_ = now
      ∧ ∀ later : ℚ, ((later - now : ℚ) : WithTop ℚ) ≤ s.rate_trigger_.period_ →
          publishRobotStateMsg (releaseBuffer (publishRobotStateMsg s now)) later =
            releaseBuffer (publishRobotStateMsg s now) := by
  rw [publishRobotStateMsg_contended s now hfire hbusy]
  refine ⟨rfl, rfl, rfl, rfl, ?_⟩
  intro later hlater
  exact publishRobotStateMsg_gated _ later hlater

/-- C1 (amended) exercised on the contended object at 15 ms. -/
theorem publish_contention_restamps_witness :
    (((15 / 1000 : ℚ) - contendedSim.rate_trigger_.time_stamp_ : ℚ) : WithTop ℚ)
        > contendedSim.rate_trigger_.period_
      ∧ contendedSim.publisher_franka_states_.trylock = false
      ∧ (publishRobotStateMsg contendedSim (15 / 1000)).rate_trigger_.time_stamp_
          = 15 / 1000 :=
  ⟨by simp only [contendedSim, freshSim]; exact WithTop.coe_lt_coe.mpr (by norm_num), rfl,
    (publish_contention_restamps contendedSim (15 / 1000)
      (by simp only [contendedSim, freshSim]; exact WithTop.coe_lt_coe.mpr (by norm_num))
      rfl).2.2.2.1⟩

/-! ## C2: what a successful publish copies -/

theorem copyAll_fold {n : Nat} (src : Arr n) (l : List (Fin n)) :
    ∀ (dst : Arr n) (i : Fin n),
      (l.foldl (fun d i => Function.update d i (src i)) dst) i =
        if i ∈ l then src i else dst i := by
  induction l with
  | nil => intro dst i; simp
  | cons j rest ih =>
    intro dst i
    rw [List.foldl_cons, ih]
    by_cases hi : i ∈ rest
    · simp [hi]
    · by_cases hj : i = j
      · subst hj; simp [hi]
      · simp [hi, hj, Function.update_noteq hj]

/-- The loop over all indices leaves a copy of the source. -/
theorem copyAll_eq {n : Nat} (src dst : Arr n) : copyAll src dst = src := by
  funext i
  rw [copyAll, copyAll_fold]
  simp [List.mem_finRange]

theorem copyJointFields_fold (rs : RobotState) (l : List (Fin 7)) :
    ∀ (msg : FrankaState),
      l.foldl
        (fun m i => { m with
          q := Function.update m.q i (rs.q i)
          dq := Function.update m.dq i (rs.dq i)
          tau_J := Function.update m.tau_J i (rs.tau_J i) })
        msg =
      { msg with
        q := l.foldl (fun d i => Function.update d i (rs.q i)) msg.q
        dq := l.foldl (fun d i => Function.update d i (rs.dq i)) msg.dq
        tau_J := l.foldl (fun d i => Function.update d i (rs.tau_J i)) msg.tau_J } := by
  induction l with
  | nil => intro msg; rfl
  | cons j rest ih => intro msg; rw [List.foldl_cons, ih]; rfl

/-- The first loop of `publishRobotStateMsg` leaves copies of `q`, `dq` and `tau_J` and
touches nothing else in the message. -/
theorem copyJointFields_eq (rs : RobotState) (msg : FrankaState) :
    copyJointFields rs msg = { msg with q := rs.q, dq := rs.dq, tau_J := rs.tau_J } := by
  have hq := copyAll_eq rs.q msg.q
  have hdq := copyAll_eq rs.dq msg.dq
  have htau := copyAll_eq rs.tau_J msg.tau_J
  simp only [copyAll] at hq hdq htau
  rw [copyJointFields, copyJointFields_fold, hq, hdq, htau]

/-- What `publishRobotStateMsg` does when the trigger fires and the try-lock succeeds. -/
theorem publishRobotStateMsg_published (s : PandaRobotHWSim) (now : ℚ)
    (hfire : ((now - s.rate_trigger_.time_stamp_ : ℚ) : WithTop ℚ)
      > s.rate_trigger_.period_)
    (hlock : s.publisher_franka_states_.trylock = true) :
    publishRobotStateMsg s now =
      { s with
        rate_trigger_ := { s.rate_trigger_ with time_stamp_ := now }
        publisher_franka_states_ :=
          { s.publisher_franka_states_ with
            msg_ := { s.publisher_franka_states_.msg_ with
              q := s.robot_state_.q, dq := s.robot_state_.dq, tau_J := s.robot_state_.tau_J,
              O_T_EE := s.robot_state_.O_T_EE }
            turn_ := Turn.NON_REALTIME } } := by
  have hc : s.rate_trigger_.call now =
      (true, { s.rate_trigger_ with time_stamp_ := now }) := by
    simp only [TriggerRate.call, if_pos hfire]
  simp only [publishRobotStateMsg, hc, hlock, Bool.and_true, if_true, copyJointFields_eq,
    copyAll_eq, RealtimePublisher.unlockAndPublish]

/-- C2, as stated, fails: two objects that differ in the Jacobian, gravity, Coriolis and mass
arrays, both with the trigger firing and the buffer free, leave the same outgoing message, so
the message carries none of these four fields. -/
theorem published_message_omits_model_terms :
    (((15 / 1000 : ℚ) - (freshSim twoTipTree).rate_trigger_.time_stamp_ : ℚ) : WithTop ℚ)
        > (freshSim twoTipTree).rate_trigger_.period_
      ∧ (((15 / 1000 : ℚ) - onesModelSim.rate_trigger_.time_stamp_ : ℚ) : WithTop ℚ)
        > onesModelSim.rate_trigger_.period_
      ∧ (freshSim twoTipTree).publisher_franka_states_.trylock = true
      ∧ onesModelSim.publisher_franka_states_.trylock = true
      ∧ (freshSim twoTipTree).jacobian_ ≠ onesModelSim.jacobian_
      ∧ (freshSim twoTipTree).gravity_ ≠ onesModelSim.gravity_
      ∧ (freshSim twoTipTree).coriolis_ ≠ onesModelSim.coriolis_
      ∧ (freshSim twoTipTree).mass_matrix_ ≠ onesModelSim.mass_matrix_
      ∧ (publishRobotStateMsg (freshSim twoTipTree) (15 / 1000)).publisher_franka_states_
          = (publishRobotStateMsg onesModelSim (15 / 1000)).publisher_franka_states_
      ∧ (publishRobotStateMsg onesModelSim (15 / 1000)).publisher_franka_states_.turn_
          = Turn.NON_REALTIME := by
  have hfire : (((15 / 1000 : ℚ) - (freshSim twoTipTree).rate_trigger_.time_stamp_ : ℚ)
      : WithTop ℚ)
      > (freshSim twoTipTree).rate_trigger_.period_ := by
    simp only [freshSim]; exact WithTop.coe_lt_coe.mpr (by norm_num)
  have hfire2 : (((15 / 1000 : ℚ) - onesModelSim.rate_trigger_.time_stamp_ : ℚ) : WithTop ℚ)
      > onesModelSim.rate_trigger_.period_ := hfire
  have hne : ∀ n : Nat, 0 < n → (0 : Arr n) ≠ (fun _ => 1) := by
    intro n hn h
    have := congrFun h ⟨0, hn⟩
    simp at this
  refine ⟨hfire, hfire2, rfl, rfl, hne 42 (by decide), hne 7 (by decide), hne 7 (by decide),
    hne 49 (by decide), ?_, ?_⟩
  · rw [publishRobotStateMsg_published _ _ hfire rfl,
      publishRobotStateMsg_published _ _ hfire2 rfl]
    rfl
  · rw [publishRobotStateMsg_published _ _ hfire2 rfl]

/-- C2 (amended): when the rate trigger fires and the buffer is acquired, after
`publishRobotStateMsg` the fields `q`, `dq`, `tau_J` and `O_T_EE` of the outgoing message
equal those of the robot state, every other field of the message keeps its previous value,
the message is handed to the publishing thread, and the robot state and the Jacobian,
gravity, Coriolis and mass arrays (which are not part of the message) are left as they
were. -/
theorem publish_copies_joint_state_and_pose (s : PandaRobotHWSim) (now : ℚ)
    (hfire : ((now - s.rate_trigger_.time_stamp_ : ℚ) : WithTop ℚ)
      > s.rate_trigger_.period_)
    (hlock : s.publisher_franka_states_.trylock = true) :
    ((publishRobotStateMsg s now).publisher_franka_states_.msg_.q = s.robot_state_.q
        ∧ (publishRobotStateMsg s now).publisher_franka_states_.msg_.dq = s.robot_state_.dq
        ∧ (publishRobotStateMsg s now).publisher_franka_states_.msg_.tau_J
            = s.robot_state_.tau_J
        ∧ (publishRobotStateMsg s now).publisher_franka_states_.msg_.O_T_EE
            = s.robot_state_.O_T_EE)
      ∧ (publishRobotStateMsg s now).publisher_franka_states_.msg_ =
          { s.publisher_franka_states_.msg_ with
            q := s.robot_state_.q, dq := s.robot_state_.dq, tau_J := s.robot_state_.tau_J,
            O_T_EE := s.robot_state_.O_T_EE }
      ∧ (publishRobotStateMsg s now).publisher_franka_states_.turn_ = Turn.NON_REALTIME
      ∧ (publishRobotStateMsg s now).robot_state_ = s.robot_state_
      ∧ (publishRobotStateMsg s now).jacobian_ = s.jacobian_
      ∧ (publishRobotStateMsg s now).gravity_ = s.gravity_
      ∧ (publishRobotStateMsg s now).coriolis_ = s.coriolis_
      ∧ (publishRobotStateMsg s now).mass_matrix_ = s.mass_matrix_ := by
  rw [publishRobotStateMsg_published s now hfire hlock]
  exact ⟨⟨rfl, rfl, rfl, rfl⟩, rfl, rfl, rfl, rfl, rfl, rfl, rfl⟩

/-- C2 (amended) exercised on a fresh object at 15 ms. -/
theorem publish_copies_joint_state_and_pose_witness :
    (((15 / 1000 : ℚ) - onesModelSim.rate_trigger_.time_stamp_ : ℚ) : WithTop ℚ)
        > onesModelSim.rate_trigger_.period_
      ∧ onesModelSim.publisher_franka_states_.trylock = true
      ∧ (publishRobotStateMsg onesModelSim (15 / 1000)).publisher_franka_states_.msg_.q
          = onesModelSim.robot_state_.q :=
  ⟨by simp only [onesModelSim, freshSim]; exact WithTop.coe_lt_coe.mpr (by norm_num), rfl,
    (publish_copies_joint_state_and_pose onesModelSim (15 / 1000)
      (by simp only [onesModelSim, freshSim]; exact WithTop.coe_lt_coe.mpr (by norm_num))
      rfl).1.1⟩

/-! ## The loops of the cycle -/

theorem set_take_drop (p jp : List ℚ) (k : Nat) (hk : k < p.length) (hk2 : k < jp.length) :
    (p.take k ++ jp.drop k).set k (p[k]) = p.take (k + 1) ++ jp.drop (k + 1) := by
  have hlen : (p.take k).length = k := by
    rw [List.length_take]; omega
  have hdrop : jp.drop k = jp[k] :: jp.drop (k + 1) := List.drop_eq_getElem_cons hk2
  rw [List.set_append, hlen, if_neg (Nat.lt_irrefl k), Nat.sub_self, hdrop, List.set_cons_zero,
    List.take_succ, List.getElem?_eq_getElem hk]
  simp only [Option.toList, List.append_assoc, List.singleton_append]

theorem vecWrite_take_drop (p jp : List ℚ) (k : Nat) (hk : k < p.length)
    (hk2 : k < jp.length) :
    vecWrite (p.take k ++ jp.drop k) k (p[k]) = some (p.take (k + 1) ++ jp.drop (k + 1)) := by
  have hlen : k < (p.take k ++ jp.drop k).length := by
    rw [List.length_append, List.length_take, List.length_drop]; omega
  rw [vecWrite, if_pos hlen, set_take_drop p jp k hk hk2]

theorem arrWrite_upto (p : List ℚ) (a : Arr 7) (k : Nat) (hk : k < p.length) (h7 : k < 7) :
    Arr.write (fun i : Fin 7 => if i.val < k then p.getD i.val 0 else a i) k (p[k]) =
      some (fun i : Fin 7 => if i.val < k + 1 then p.getD i.val 0 else a i) := by
  rw [Arr.write, dif_pos h7]
  congr 1
  funext i
  by_cases hi : i = ⟨k, h7⟩
  · subst hi
    simp [List.getD_eq_getElem?_getD, List.getElem?_eq_getElem hk]
  · have hne : i.val ≠ k := fun h => hi (Fin.ext h)
    rw [Function.update_noteq hi]
    by_cases hlt : i.val < k
    · simp [hlt, Nat.lt_succ_of_lt hlt]
    · have : ¬ i.val < k + 1 := by omega
      simp [hlt, this]

theorem jointLoopBody_step (s : PandaRobotHWSim) (b : JointBuffers) (k : Nat)
    (h7 : k < 7)
    (hp : k < s.joint_position_.length) (hv : k < s.joint_velocity_.length)
    (he : k < s.joint_effort_.length)
    (hbp : k < b.jnt_pos.length) (hbv : k < b.jnt_vel.length) (hbe : k < b.jnt_eff.length) :
    jointLoopBody s (jointBuffersAfter s b k) k = some (jointBuffersAfter s b (k + 1)) := by
  simp only [jointLoopBody, jointBuffersAfter, List.getElem?_eq_getElem hp,
    List.getElem?_eq_getElem hv, List.getElem?_eq_getElem he,
    vecWrite_take_drop _ _ k hp hbp, vecWrite_take_drop _ _ k hv hbv,
    vecWrite_take_drop _ _ k he hbe, arrWrite_upto _ _ k hp h7, arrWrite_upto _ _ k hv h7,
    arrWrite_upto _ _ k he h7]

theorem jointLoop_upto (s : PandaRobotHWSim) (b : JointBuffers) (k : Nat) (h7 : k ≤ 7)
    (hp : k ≤ s.joint_position_.length) (hv : k ≤ s.joint_velocity_.length)
    (he : k ≤ s.joint_effort_.length)
    (hbp : k ≤ b.jnt_pos.length) (hbv : k ≤ b.jnt_vel.length) (hbe : k ≤ b.jnt_eff.length) :
    (List.range k).foldlM (jointLoopBody s) b = some (jointBuffersAfter s b k) := by
  induction k with
  | zero =>
    simp only [List.range_zero, List.foldlM_nil, jointBuffersAfter, List.take_zero,
      List.nil_append, List.drop_zero, Nat.not_lt_zero, if_false]
    rfl
  | succ k ih =>
    rw [List.range_succ, List.foldlM_append,
      ih (by omega) (by omega) (by omega) (by omega) (by omega) (by omega) (by omega)]
    simp only [Option.bind_eq_bind, Option.some_bind, List.foldlM_cons, List.foldlM_nil,
      Option.pure_def, Option.bind_some]
    rw [jointLoopBody_step s b k (by omega) (by omega) (by omega) (by omega) (by omega)
      (by omega) (by omega)]

theorem copyLoop_upto {m n : Nat} (src : Arr m) (dst : Arr n) (k : Nat) (hm : k ≤ m)
    (hn : k ≤ n) : copyLoop k src dst = some (copiedPrefix k src dst) := by
  unfold copyLoop
  induction k with
  | zero =>
    simp only [List.range_zero, List.foldlM_nil, copiedPrefix, Nat.not_lt_zero, if_false]
    rfl
  | succ k ih =>
    have hkm : k < m := by omega
    have hkn : k < n := by omega
    rw [List.range_succ, List.foldlM_append, ih (by omega) (by omega)]
    simp only [Option.bind_eq_bind, Option.some_bind, List.foldlM_cons, List.foldlM_nil,
      Option.pure_def, Option.bind_some, Arr.read, dif_pos hkm, Arr.write, dif_pos hkn]
    congr 1
    funext i
    by_cases hi : i = ⟨k, hkn⟩
    · subst hi
      simp [copiedPrefix, Arr.read, hkm]
    · have hne : i.val ≠ k := fun h => hi (Fin.ext h)
      rw [Function.update_noteq hi]
      by_cases hlt : i.val < k
      · simp [copiedPrefix, hlt, Nat.lt_succ_of_lt hlt]
      · have : ¬ i.val < k + 1 := by omega
        simp [copiedPrefix, hlt, this]

/-- Reading back a copied entry gives the source entry. -/
theorem read_copiedPrefix {m n : Nat} (src : Arr m) (dst : Arr n) (k i : Nat) (hi : i < k)
    (hm : k ≤ m) (hn : k ≤ n) :
    Arr.read (copiedPrefix k src dst) i = Arr.read src i := by
  have him : i < m := by omega
  have hin : i < n := by omega
  simp [Arr.read, copiedPrefix, hi, him, hin]

theorem ChainMap.find_none_of_not_mem (m : ChainMap) (k : String)
    (h : k ∉ m.map Prod.fst) : ChainMap.find m k = none := by
  induction m with
  | nil => rfl
  | cons e rest ih =>
    obtain ⟨k0, v0⟩ := e
    simp only [List.map_cons, List.mem_cons, not_or] at h
    have hk : ¬ k0 = k := fun hk => h.1 hk.symm
    simp only [ChainMap.find, hk, if_false]
    exact ih h.2

theorem computePositionFK_some (ext : External) (s : PandaRobotHWSim) (kdl : KDLMethods)
    (kin : Kinematics) (jnt_pos : List ℚ) (hkdl : s.kdl_ = some kdl) :
    ∃ r, computePositionFK ext s kin jnt_pos Pose.default = some r
      ∧ r.2 = tipPose ext kdl kin jnt_pos
      ∧ (r.1 = false ↔
          (ext.PosFKJntToCart kdl.chain_ jnt_pos kin.chain.getNrOfSegments).1 < 0) := by
  unfold computePositionFK tipPose
  rw [hkdl]
  by_cases h : (ext.PosFKJntToCart kdl.chain_ jnt_pos kin.chain.getNrOfSegments).1 < 0
  · refine ⟨(false, Pose.default), ?_, ?_, ?_⟩ <;> simp [h]
  · refine ⟨(true, ext.poseKDLToMsg
      (ext.PosFKJntToCart kdl.chain_ jnt_pos kin.chain.getNrOfSegments).2), ?_, ?_, ?_⟩
      <;> simp [h]

theorem chainLoop_absent (ext : External) (s : PandaRobotHWSim) (jnt_pos : List ℚ) :
    ∀ (m : ChainMap) (rs : RobotState), ChainMap.find m s.tip_name_ = none →
      m.foldlM (chainLoopBody ext s jnt_pos) rs = some rs := by
  intro m
  induction m with
  | nil => intro rs _; rfl
  | cons e rest ih =>
    intro rs h
    obtain ⟨k0, v0⟩ := e
    by_cases hk : k0 = s.tip_name_
    · simp [ChainMap.find, hk] at h
    · simp only [ChainMap.find, hk, if_false] at h
      simp only [List.foldlM_cons, chainLoopBody, hk, if_false, Option.bind_eq_bind,
        Option.some_bind]
      exact ih rs h

/-- The loop over a map with distinct keys rewrites `O_T_EE` once, from the entry stored
under `tip_name_`. -/
theorem chainLoop_registered (ext : External) (s : PandaRobotHWSim) (kdl : KDLMethods)
    (kin : Kinematics) (jnt_pos : List ℚ) (hkdl : s.kdl_ = some kdl) :
    ∀ (m : ChainMap) (rs : RobotState), (m.map Prod.fst).Nodup →
      ChainMap.find m s.tip_name_ = some kin →
      m.foldlM (chainLoopBody ext s jnt_pos) rs =
        some { rs with O_T_EE := poseToO_T_EE (tipPose ext kdl kin jnt_pos) } := by
  intro m
  induction m with
  | nil => intro rs _ h; simp [ChainMap.find] at h
  | cons e rest ih =>
    intro rs hnd h
    obtain ⟨k0, v0⟩ := e
    simp only [List.map_cons, List.nodup_cons] at hnd
    by_cases hk : k0 = s.tip_name_
    · simp only [ChainMap.find, hk, if_true, Option.some.injEq] at h
      subst h
      obtain ⟨r, hr, hpose, _⟩ := computePositionFK_some ext s kdl v0 jnt_pos hkdl
      have hrest : ChainMap.find rest s.tip_name_ = none :=
        ChainMap.find_none_of_not_mem rest _ (hk ▸ hnd.1)
      simp only [List.foldlM_cons, chainLoopBody, hk, if_true, hr, Option.bind_eq_bind,
        Option.some_bind, hpose]
      exact chainLoop_absent ext s jnt_pos rest _ hrest
    · simp only [ChainMap.find, hk, if_false] at h
      simp only [List.foldlM_cons, chainLoopBody, hk, if_false, Option.bind_eq_bind,
        Option.some_bind]
      exact ih rs hnd.2 h

/-- The result of `updateRobotStateJoints` on a well-formed object: distinct keys, the
configured tip registered, a solver present, at most seven joints, and samples and buffers
of at least `num_jnts` entries. -/
theorem updateRobotStateJoints_eq (ext : External) (s : PandaRobotHWSim) (kdl : KDLMethods)
    (kin : Kinematics) (jnt_pos jnt_vel jnt_eff : List ℚ)
    (hkdl : s.kdl_ = some kdl)
    (hnd : (s.kinematic_chain_map_.map Prod.fst).Nodup)
    (hreg : ChainMap.find s.kinematic_chain_map_ s.tip_name_ = some kin)
    (h7 : s.num_jnts ≤ 7)
    (hp : s.num_jnts ≤ s.joint_position_.length)
    (hv : s.num_jnts ≤ s.joint_velocity_.length)
    (he : s.num_jnts ≤ s.joint_effort_.length)
    (hbp : s.num_jnts ≤ jnt_pos.length) (hbv : s.num_jnts ≤ jnt_vel.length)
    (hbe : s.num_jnts ≤ jnt_eff.length) :
    updateRobotStateJoints ext s jnt_pos jnt_vel jnt_eff =
      some ({ s with robot_state_ := { s.robot_state_ with
                q := fun i => if i.val < s.num_jnts then s.joint_position_.getD i.val 0
                  else s.robot_state_.q i
                dq := fun i => if i.val < s.num_jnts then s.joint_velocity_.getD i.val 0
                  else s.robot_state_.dq i
                tau_J := fun i => if i.val < s.num_jnts then s.joint_effort_.getD i.val 0
                  else s.robot_state_.tau_J i
                O_T_EE := poseToO_T_EE (tipPose ext kdl kin
                  (s.joint_position_.take s.num_jnts
                    ++ (List.replicate jnt_pos.length 0).drop s.num_jnts)) } },
        s.joint_position_.take s.num_jnts ++ (List.replicate jnt_pos.length 0).drop s.num_jnts,
        s.joint_velocity_.take s.num_jnts ++ (List.replicate jnt_vel.length 0).drop s.num_jnts,
        s.joint_effort_.take s.num_jnts
          ++ (List.replicate jnt_eff.length 0).drop s.num_jnts) := by
  unfold updateRobotStateJoints
  simp only [jointLoop]
  rw [jointLoop_upto s _ s.num_jnts h7 hp hv he (by simpa using hbp) (by simpa using hbv)
    (by simpa using hbe)]
  simp only [jointBuffersAfter]
  rw [chainLoop_registered ext s kdl kin _ hkdl _ _ hnd hreg]

theorem updateGravityVec_eq (ext : External) (s : PandaRobotHWSim) (kdl : KDLMethods)
    (jnt_pos : List ℚ) (hkdl : s.kdl_ = some kdl) (h7 : s.num_jnts ≤ 7) :
    updateGravityVec ext s jnt_pos =
      some { s with gravity_ :=
        copiedPrefix s.num_jnts (ext.JntToGravity kdl.chain_ jnt_pos s.num_jnts) s.gravity_ } := by
  unfold updateGravityVec
  rw [hkdl]
  simp only [copyLoop_upto _ _ s.num_jnts (le_refl _) h7]

theorem updateCoriolisVec_eq (ext : External) (s : PandaRobotHWSim) (kdl : KDLMethods)
    (jnt_pos jnt_vel : List ℚ) (hkdl : s.kdl_ = some kdl) (h7 : s.num_jnts ≤ 7) :
    updateCoriolisVec ext s jnt_pos jnt_vel =
      some { s with
        coriolis_ := copiedPrefix s.num_jnts
          (ext.JntToCoriolis kdl.chain_ jnt_pos jnt_vel s.num_jnts) s.coriolis_ } := by
  unfold updateCoriolisVec
  rw [hkdl]
  simp only [copyLoop_upto _ _ s.num_jnts (le_refl _) h7]

theorem updateMassMatrixKDL_eq (ext : External) (s : PandaRobotHWSim) (kdl : KDLMethods)
    (jnt_pos : List ℚ) (hkdl : s.kdl_ = some kdl) (h7 : 7 ≤ s.num_jnts) :
    updateMassMatrixKDL ext s jnt_pos =
      some { s with mass_matrix_ :=
        copiedPrefix 49 (ext.JntToMass kdl.chain_ jnt_pos s.num_jnts) s.mass_matrix_ } := by
  unfold updateMassMatrixKDL
  rw [hkdl]
  have h49 : 49 ≤ s.num_jnts * s.num_jnts := Nat.mul_le_mul h7 h7
  simp only [copyLoop_upto _ _ 49 h49 (le_refl _)]

theorem updateJacobian_eq (ext : External) (s : PandaRobotHWSim) (kdl : KDLMethods)
    (jnt_pos jnt_vel : List ℚ) (hkdl : s.kdl_ = some kdl) (h7 : 7 ≤ s.num_jnts) :
    updateJacobian ext s jnt_pos jnt_vel =
      some { s with jacobian_ :=
        copiedPrefix 42 (ext.JacobianJntToJac kdl.chain_ jnt_pos s.num_jnts) s.jacobian_ } := by
  unfold updateJacobian
  rw [hkdl]
  have h42 : 42 ≤ 6 * s.num_jnts := by omega
  simp only [copyLoop_upto _ _ 42 h42 (le_refl _)]

/-- Publishing touches only the trigger and the publisher. -/
theorem publishRobotStateMsg_frame (s : PandaRobotHWSim) (now : ℚ) :
    (publishRobotStateMsg s now).robot_state_ = s.robot_state_
      ∧ (publishRobotStateMsg s now).jacobian_ = s.jacobian_
      ∧ (publishRobotStateMsg s now).gravity_ = s.gravity_
      ∧ (publishRobotStateMsg s now).coriolis_ = s.coriolis_
      ∧ (publishRobotStateMsg s now).mass_matrix_ = s.mass_matrix_ := by
  simp only [publishRobotStateMsg]
  split <;> exact ⟨rfl, rfl, rfl, rfl, rfl⟩

/-- The fields of the state after one cycle on a well-formed object. -/
theorem readSim_fields (ext : External) (s : PandaRobotHWSim) (kdl : KDLMethods)
    (kin : Kinematics) (pos vel eff : List ℚ) (now : ℚ)
    (hkdl : s.kdl_ = some kdl)
    (hnd : (s.kinematic_chain_map_.map Prod.fst).Nodup)
    (hreg : ChainMap.find s.kinematic_chain_map_ s.tip_name_ = some kin)
    (h7 : kin.chain.getNrOfJoints ≤ 7)
    (hJ : s.robot_state_needed = true → 7 ≤ kin.chain.getNrOfJoints)
    (hM : s.mass_calculation_needed = true → 7 ≤ kin.chain.getNrOfJoints)
    (hp : kin.chain.getNrOfJoints ≤ pos.length)
    (hv : kin.chain.getNrOfJoints ≤ vel.length)
    (he : kin.chain.getNrOfJoints ≤ eff.length) :
    ∃ s', readSim ext s pos vel eff now = some s'
      ∧ s'.robot_state_ = { s.robot_state_ with
          q := fun i => if i.val < kin.chain.getNrOfJoints then pos.getD i.val 0
            else s.robot_state_.q i
          dq := fun i => if i.val < kin.chain.getNrOfJoints then vel.getD i.val 0
            else s.robot_state_.dq i
          tau_J := fun i => if i.val < kin.chain.getNrOfJoints then eff.getD i.val 0
            else s.robot_state_.tau_J i
          O_T_EE := poseToO_T_EE (tipPose ext kdl kin (pos.take kin.chain.getNrOfJoints)) }
      ∧ s'.jacobian_ = (if s.robot_state_needed then
          copiedPrefix 42 (ext.JacobianJntToJac kdl.chain_ (pos.take kin.chain.getNrOfJoints)
            kin.chain.getNrOfJoints) s.jacobian_ else s.jacobian_)
      ∧ s'.coriolis_ = (if s.coriolis_calculation_needed then
          copiedPrefix kin.chain.getNrOfJoints
            (ext.JntToCoriolis kdl.chain_ (pos.take kin.chain.getNrOfJoints)
              (vel.take kin.chain.getNrOfJoints) kin.chain.getNrOfJoints) s.coriolis_
          else s.coriolis_)
      ∧ s'.gravity_ = (if s.gravity_calculation_needed then
          copiedPrefix kin.chain.getNrOfJoints
            (ext.JntToGravity kdl.chain_ (pos.take kin.chain.getNrOfJoints)
              kin.chain.getNrOfJoints) s.gravity_
          else s.gravity_)
      ∧ s'.mass_matrix_ = (if s.mass_calculation_needed then
          copiedPrefix 49 (ext.JntToMass kdl.chain_ (pos.take kin.chain.getNrOfJoints)
            kin.chain.getNrOfJoints) s.mass_matrix_ else s.mass_matrix_)
      ∧ (s.robot_state_needed = false →
          s'.publisher_franka_states_ = s.publisher_franka_states_
            ∧ s'.rate_trigger_ = s.rate_trigger_) := by
  have hdrop : ∀ n : Nat, (List.replicate (List.replicate n (0 : ℚ)).length (0 : ℚ)).drop n = [] := by
    intro n; simp
  unfold readSim
  simp only [ChainMap.index, hreg]
  have h2 := updateRobotStateJoints_eq ext
    { s with joint_position_ := pos, joint_velocity_ := vel, joint_effort_ := eff,
             num_jnts := kin.chain.getNrOfJoints } kdl kin
    (List.replicate kin.chain.getNrOfJoints 0) (List.replicate kin.chain.getNrOfJoints 0)
    (List.replicate kin.chain.getNrOfJoints 0) hkdl hnd hreg h7 hp hv he
    (by simp) (by simp) (by simp)
  simp only [hdrop, List.append_nil] at h2
  rw [h2]
  simp only []
  have hG : ∀ (t : PandaRobotHWSim) (jp : List ℚ), t.kdl_ = some kdl → t.num_jnts ≤ 7 →
      updateGravityVec ext t jp = some { t with
        gravity_ := copiedPrefix t.num_jnts
          (ext.JntToGravity kdl.chain_ jp t.num_jnts) t.gravity_ } :=
    fun t jp h1 h2 => updateGravityVec_eq ext t kdl jp h1 h2
  have hC : ∀ (t : PandaRobotHWSim) (jp jv : List ℚ), t.kdl_ = some kdl → t.num_jnts ≤ 7 →
      updateCoriolisVec ext t jp jv = some { t with
        coriolis_ := copiedPrefix t.num_jnts
          (ext.JntToCoriolis kdl.chain_ jp jv t.num_jnts) t.coriolis_ } :=
    fun t jp jv h1 h2 => updateCoriolisVec_eq ext t kdl jp jv h1 h2
  have hMm : ∀ (t : PandaRobotHWSim) (jp : List ℚ), t.kdl_ = some kdl → 7 ≤ t.num_jnts →
      updateMassMatrixKDL ext t jp = some { t with
        mass_matrix_ := copiedPrefix 49
          (ext.JntToMass kdl.chain_ jp t.num_jnts) t.mass_matrix_ } :=
    fun t jp h1 h2 => updateMassMatrixKDL_eq ext t kdl jp h1 h2
  have hJc : ∀ (t : PandaRobotHWSim) (jp jv : List ℚ), t.kdl_ = some kdl → 7 ≤ t.num_jnts →
      updateJacobian ext t jp jv = some { t with
        jacobian_ := copiedPrefix 42
          (ext.JacobianJntToJac kdl.chain_ jp t.num_jnts) t.jacobian_ } :=
    fun t jp jv h1 h2 => updateJacobian_eq ext t kdl jp jv h1 h2
  have hpub := fun t => publishRobotStateMsg_frame t now
  cases hf1 : s.robot_state_needed <;> cases hf2 : s.coriolis_calculation_needed <;>
    cases hf3 : s.gravity_calculation_needed <;> cases hf4 : s.mass_calculation_needed <;>
    simp only [hf1, hf4, true_implies, false_implies] at hJ hM <;>
    simp [hG, hC, hMm, hJc, hkdl, h7, hJ, hM, hpub]


/-- Where the entries of the homogeneous transform land among the 16 doubles. -/
theorem poseToO_T_EE_layout (pose : Pose) :
    (∀ r c : Fin 3, poseToO_T_EE pose ⟨4 * c.val + r.val, by omega⟩ =
        Quaternion.toRotationMatrix ⟨pose.orientation.x, pose.orientation.y,
          pose.orientation.z, pose.orientation.w⟩ r c)
      ∧ poseToO_T_EE pose ⟨12, by decide⟩ = pose.position.x
      ∧ poseToO_T_EE pose ⟨13, by decide⟩ = pose.position.y
      ∧ poseToO_T_EE pose ⟨14, by decide⟩ = pose.position.z
      ∧ poseToO_T_EE pose ⟨3, by decide⟩ = 0
      ∧ poseToO_T_EE pose ⟨7, by decide⟩ = 0
      ∧ poseToO_T_EE pose ⟨11, by decide⟩ = 0
      ∧ poseToO_T_EE pose ⟨15, by decide⟩ = 1 := by
  refine ⟨?_, rfl, rfl, rfl, rfl, rfl, rfl, rfl⟩
  intro r c
  fin_cases r <;> fin_cases c <;> rfl


theorem read_prefix_sample (p : List ℚ) (a : Arr 7) (N i : Nat) (hi : i < N) (h7 : N ≤ 7)
    (hp : N ≤ p.length) :
    Arr.read (fun j : Fin 7 => if j.val < N then p.getD j.val 0 else a j) i = p[i]? := by
  have h1 : i < 7 := by omega
  have h2 : i < p.length := by omega
  simp [Arr.read, h1, hi, List.getD_eq_getElem?_getD, List.getElem?_eq_getElem h2]

theorem toRotationMatrix_zero : Quaternion.toRotationMatrix ⟨0, 0, 0, 0⟩ = 1 := by
  ext i j
  fin_cases i <;> fin_cases j <;>
    simp [Quaternion.toRotationMatrix, Matrix.vecHead, Matrix.vecTail]

/-- The default pose yields the identity transform. -/
theorem poseToO_T_EE_default : poseToO_T_EE Pose.default = Matrix4d.data 1 := by
  have h : poseToO_T_EE Pose.default =
      Matrix4d.data (setBlock31 (setBlock33 1 (Quaternion.toRotationMatrix ⟨0, 0, 0, 0⟩))
        ![0, 0, 0]) := rfl
  rw [h, toRotationMatrix_zero]
  funext k
  obtain ⟨k, hk⟩ := k
  interval_cases k <;> simp [Matrix4d.data, setBlock31, setBlock33, Matrix.one_apply]

theorem tipPose_failed (ext : External) (kdl : KDLMethods) (kin : Kinematics)
    (jnt_pos : List ℚ)
    (h : (ext.PosFKJntToCart kdl.chain_ jnt_pos kin.chain.getNrOfSegments).1 < 0) :
    tipPose ext kdl kin jnt_pos = Pose.default := by
  simp [tipPose, h]

theorem tipPose_solved (ext : External) (kdl : KDLMethods) (kin : Kinematics)
    (jnt_pos : List ℚ)
    (h : 0 ≤ (ext.PosFKJntToCart kdl.chain_ jnt_pos kin.chain.getNrOfSegments).1) :
    tipPose ext kdl kin jnt_pos =
      ext.poseKDLToMsg (ext.PosFKJntToCart kdl.chain_ jnt_pos kin.chain.getNrOfSegments).2 := by
  simp [tipPose, not_lt.mpr h]

/-! ## C4: a failed forward solve -/

/-- C4: on an object whose solver reports failure for the configured tip (its joint array
does not fit the chain the solver is bound to) and whose `O_T_EE` holds a previously computed
transform with translation (1, 2, 3), `computePositionFK` returns false, and after
`updateRobotStateJoints` the entry at index 12 has changed from 1 to 0: all 16 entries are
those of the identity transform, not their values before the call. -/
theorem failed_solve_overwrites_pose :
    (computePositionFK demoExt staleSolverSim ⟨chainPanda, saveJointNames chainPanda.segments⟩
        samplePos Pose.default).map Prod.fst = some false
      ∧ staleSolverSim.robot_state_.O_T_EE ⟨12, by decide⟩ = 1
      ∧ (updateRobotStateJoints demoExt staleSolverSim (List.replicate 7 0)
          (List.replicate 7 0) (List.replicate 7 0)).map
            (fun r => r.1.robot_state_.O_T_EE ⟨12, by decide⟩) = some 0
      ∧ (updateRobotStateJoints demoExt staleSolverSim (List.replicate 7 0)
          (List.replicate 7 0) (List.replicate 7 0)).map
            (fun r => r.1.robot_state_.O_T_EE) = some (Matrix4d.data 1) := by
  have h := updateRobotStateJoints_eq demoExt staleSolverSim ⟨chainShort⟩
    ⟨chainPanda, saveJointNames chainPanda.segments⟩ (List.replicate 7 0) (List.replicate 7 0)
    (List.replicate 7 0) (by decide) (by decide) (by decide) (by decide) (by decide)
    (by decide) (by decide) (by decide) (by decide) (by decide)
  have hfail : tipPose demoExt ⟨chainShort⟩ ⟨chainPanda, saveJointNames chainPanda.segments⟩
      (staleSolverSim.joint_position_.take staleSolverSim.num_jnts
        ++ (List.replicate (List.replicate 7 (0 : ℚ)).length 0).drop staleSolverSim.num_jnts)
      = Pose.default := tipPose_failed _ _ _ _ (by decide)
  rw [hfail, poseToO_T_EE_default] at h
  refine ⟨by decide, rfl, ?_, ?_⟩
  · rw [h]; rfl
  · rw [h]; rfl

/-! ## C5: the end-effector transform and `robot_state_needed` -/

theorem demo_solved :
    tipPose demoExt ⟨chainPanda⟩ ⟨chainPanda, saveJointNames chainPanda.segments⟩
      (List.take 7 samplePos) = samplePose := by
  rw [tipPose_solved _ _ _ _ (by decide)]
  rfl

/-- C5, as stated, fails: on the object initialised with `robot_state_needed` false, whose
`O_T_EE` is all zero, one cycle writes the transform of the solved pose (translation
(1, 2, 3)) into `O_T_EE`. -/
theorem pose_written_with_state_flag_clear :
    quietSim.robot_state_needed = false
      ∧ quietSim.robot_state_.O_T_EE = 0
      ∧ (readSim demoExt quietSim samplePos sampleVel sampleEff 1).map
          (fun s => s.robot_state_.O_T_EE) = some (poseToO_T_EE samplePose)
      ∧ poseToO_T_EE samplePose ⟨12, by decide⟩ = 1
      ∧ poseToO_T_EE samplePose ≠ quietSim.robot_state_.O_T_EE := by
  obtain ⟨s', hs, hrs, -⟩ := readSim_fields demoExt quietSim ⟨chainPanda⟩
    ⟨chainPanda, saveJointNames chainPanda.segments⟩ samplePos sampleVel sampleEff 1
    (by decide) (by decide) (by decide) (by decide) (by decide) (by decide) (by decide)
    (by decide) (by decide)
  have h12 : poseToO_T_EE samplePose ⟨12, by decide⟩ = 1 := rfl
  refine ⟨by decide, rfl, ?_, h12, ?_⟩
  · rw [hs, Option.map_some', hrs]
    show some (poseToO_T_EE (tipPose demoExt ⟨chainPanda⟩
      ⟨chainPanda, saveJointNames chainPanda.segments⟩ (List.take 7 samplePos))) = _
    rw [demo_solved]
  · intro h
    have h0 : quietSim.robot_state_.O_T_EE ⟨12, by decide⟩ = 0 := rfl
    rw [← h, h12] at h0
    exact one_ne_zero h0

/-- C5 (amended): on a well-formed object, whatever the four flags, a cycle whose forward
solve succeeds sets `O_T_EE` to the transform of the pose solved for the configured tip at
this cycle's joint positions; `robot_state_needed` gates the Jacobian and the publication:
when it is false the Jacobian, the publisher and the rate trigger are left as they were, and
when it is true the Jacobian holds the solver's result. -/
theorem readSim_pose_every_cycle (ext : External) (s : PandaRobotHWSim) (kdl : KDLMethods)
    (kin : Kinematics) (pos vel eff : List ℚ) (now : ℚ)
    (hkdl : s.kdl_ = some kdl)
    (hnd : (s.kinematic_chain_map_.map Prod.fst).Nodup)
    (hreg : ChainMap.find s.kinematic_chain_map_ s.tip_name_ = some kin)
    (h7 : kin.chain.getNrOfJoints ≤ 7)
    (hJ : s.robot_state_needed = true → 7 ≤ kin.chain.getNrOfJoints)
    (hM : s.mass_calculation_needed = true → 7 ≤ kin.chain.getNrOfJoints)
    (hp : kin.chain.getNrOfJoints ≤ pos.length)
    (hv : kin.chain.getNrOfJoints ≤ vel.length)
    (he : kin.chain.getNrOfJoints ≤ eff.length)
    (hfk : 0 ≤ (ext.PosFKJntToCart kdl.chain_ (pos.take kin.chain.getNrOfJoints)
      kin.chain.getNrOfSegments).1) :
    ∃ s', readSim ext s pos vel eff now = some s'
      ∧ s'.robot_state_.O_T_EE =
          poseToO_T_EE (ext.poseKDLToMsg (ext.PosFKJntToCart kdl.chain_
            (pos.take kin.chain.getNrOfJoints) kin.chain.getNrOfSegments).2)
      ∧ (s.robot_state_needed = false →
          s'.jacobian_ = s.jacobian_
            ∧ s'.publisher_franka_states_ = s.publisher_franka_states_
            ∧ s'.rate_trigger_ = s.rate_trigger_)
      ∧ (s.robot_state_needed = true → ∀ i, i < 42 →
          Arr.read s'.jacobian_ i =
            Arr.read (ext.JacobianJntToJac kdl.chain_ (pos.take kin.chain.getNrOfJoints)
              kin.chain.getNrOfJoints) i) := by
  obtain ⟨s', hs, hrs, hjac, -, -, -, hpub⟩ := readSim_fields ext s kdl kin pos vel eff now
    hkdl hnd hreg h7 hJ hM hp hv he
  refine ⟨s', hs, ?_, ?_, ?_⟩
  · rw [hrs]
    show poseToO_T_EE (tipPose ext kdl kin _) = _
    rw [tipPose_solved ext kdl kin _ hfk]
  · intro hf
    refine ⟨?_, (hpub hf).1, (hpub hf).2⟩
    rw [hjac, hf]; rfl
  · intro hf i hi
    have h42 : 42 ≤ 6 * kin.chain.getNrOfJoints := by have := hJ hf; omega
    rw [hjac, hf, if_pos rfl]
    exact read_copiedPrefix _ _ 42 i hi h42 (le_refl _)

/-- C5 (amended) exercised on the object initialised with `robot_state_needed` false. -/
theorem readSim_pose_every_cycle_witness :
    quietSim.robot_state_needed = false
      ∧ ∃ s', readSim demoExt quietSim samplePos sampleVel sampleEff 1 = some s'
        ∧ s'.robot_state_.O_T_EE =
            poseToO_T_EE (demoExt.poseKDLToMsg (demoExt.PosFKJntToCart chainPanda
              (samplePos.take chainPanda.getNrOfJoints) chainPanda.getNrOfSegments).2)
        ∧ (quietSim.robot_state_needed = false →
            s'.jacobian_ = quietSim.jacobian_
              ∧ s'.publisher_franka_states_ = quietSim.publisher_franka_states_
              ∧ s'.rate_trigger_ = quietSim.rate_trigger_)
        ∧ (quietSim.robot_state_needed = true → ∀ i, i < 42 →
            Arr.read s'.jacobian_ i =
              Arr.read (demoExt.JacobianJntToJac chainPanda
                (samplePos.take chainPanda.getNrOfJoints) chainPanda.getNrOfJoints) i) :=
  ⟨by decide,
    readSim_pose_every_cycle demoExt quietSim ⟨chainPanda⟩
      ⟨chainPanda, saveJointNames chainPanda.segments⟩ samplePos sampleVel sampleEff 1
      (by decide) (by decide) (by decide) (by decide) (by decide) (by decide) (by decide)
      (by decide) (by decide) (by decide)⟩

/-! ## C8: layout of the end-effector transform -/

/-- C8, as stated, fails: for the solved pose with translation (1, 2, 3) and identity
rotation, `updateRobotStateJoints` leaves 0, 0, 0 at indices 3, 7, 11 (where a row-major
layout has the translation) and 1, 2, 3 at indices 12, 13, 14 (where a row-major layout has
the zeros of the bottom row). -/
theorem transform_not_row_major :
    computePositionFK demoExt cycleSim ⟨chainPanda, saveJointNames chainPanda.segments⟩
        (List.take 7 samplePos) Pose.default = some (true, samplePose)
      ∧ samplePose.position = ⟨1, 2, 3⟩
      ∧ (updateRobotStateJoints demoExt cycleSim (List.replicate 7 0) (List.replicate 7 0)
          (List.replicate 7 0)).map
          (fun r => (r.1.robot_state_.O_T_EE ⟨3, by decide⟩,
            r.1.robot_state_.O_T_EE ⟨7, by decide⟩,
            r.1.robot_state_.O_T_EE ⟨11, by decide⟩,
            r.1.robot_state_.O_T_EE ⟨12, by decide⟩,
            r.1.robot_state_.O_T_EE ⟨13, by decide⟩,
            r.1.robot_state_.O_T_EE ⟨14, by decide⟩)) = some (0, 0, 0, 1, 2, 3)
      ∧ samplePose.position.x ≠ 0 := by
  have h := updateRobotStateJoints_eq demoExt cycleSim ⟨chainPanda⟩
    ⟨chainPanda, saveJointNames chainPanda.segments⟩ (List.replicate 7 0) (List.replicate 7 0)
    (List.replicate 7 0) (by decide) (by decide) (by decide) (by decide) (by decide)
    (by decide) (by decide) (by decide) (by decide) (by decide)
  have hsolved : tipPose demoExt ⟨chainPanda⟩ ⟨chainPanda, saveJointNames chainPanda.segments⟩
      (cycleSim.joint_position_.take cycleSim.num_jnts
        ++ (List.replicate (List.replicate 7 (0 : ℚ)).length 0).drop cycleSim.num_jnts)
      = samplePose := demo_solved
  rw [hsolved] at h
  refine ⟨rfl, rfl, ?_, (one_ne_zero : (1 : ℚ) ≠ 0)⟩
  rw [h]
  rfl

/-- C8 (amended): on a well-formed object, when the forward solve succeeds with pose
(rotation R, translation t), after `updateRobotStateJoints` the 16 doubles of `O_T_EE` are
the column-major flattening of the 4x4 matrix [R t; 0 0 0 1]: entry (r, c) is at index
4*c + r, so indices 12, 13, 14 hold t.x, t.y, t.z, indices 3, 7, 11 hold 0 and index 15
holds 1. -/
theorem updateRobotStateJoints_column_major (ext : External) (s : PandaRobotHWSim)
    (kdl : KDLMethods) (kin : Kinematics) (jnt_pos jnt_vel jnt_eff : List ℚ)
    (hkdl : s.kdl_ = some kdl)
    (hnd : (s.kinematic_chain_map_.map Prod.fst).Nodup)
    (hreg : ChainMap.find s.kinematic_chain_map_ s.tip_name_ = some kin)
    (h7 : s.num_jnts ≤ 7)
    (hp : s.num_jnts ≤ s.joint_position_.length)
    (hv : s.num_jnts ≤ s.joint_velocity_.length)
    (he : s.num_jnts ≤ s.joint_effort_.length)
    (hbp : s.num_jnts ≤ jnt_pos.length) (hbv : s.num_jnts ≤ jnt_vel.length)
    (hbe : s.num_jnts ≤ jnt_eff.length) :
    ∃ r, updateRobotStateJoints ext s jnt_pos jnt_vel jnt_eff = some r
      ∧ (0 ≤ (ext.PosFKJntToCart kdl.chain_ r.2.1 kin.chain.getNrOfSegments).1 →
        (∀ i j : Fin 3, r.1.robot_state_.O_T_EE ⟨4 * j.val + i.val, by omega⟩ =
          Quaternion.toRotationMatrix
            ⟨(ext.poseKDLToMsg (ext.PosFKJntToCart kdl.chain_ r.2.1
                kin.chain.getNrOfSegments).2).orientation.x,
              (ext.poseKDLToMsg (ext.PosFKJntToCart kdl.chain_ r.2.1
                kin.chain.getNrOfSegments).2).orientation.y,
              (ext.poseKDLToMsg (ext.PosFKJntToCart kdl.chain_ r.2.1
                kin.chain.getNrOfSegments).2).orientation.z,
              (ext.poseKDLToMsg (ext.PosFKJntToCart kdl.chain_ r.2.1
                kin.chain.getNrOfSegments).2).orientation.w⟩ i j)
        ∧ r.1.robot_state_.O_T_EE ⟨12, by decide⟩ =
            (ext.poseKDLToMsg (ext.PosFKJntToCart kdl.chain_ r.2.1
              kin.chain.getNrOfSegments).2).position.x
        ∧ r.1.robot_state_.O_T_EE ⟨13, by decide⟩ =
            (ext.poseKDLToMsg (ext.PosFKJntToCart kdl.chain_ r.2.1
              kin.chain.getNrOfSegments).2).position.y
        ∧ r.1.robot_state_.O_T_EE ⟨14, by decide⟩ =
            (ext.poseKDLToMsg (ext.PosFKJntToCart kdl.chain_ r.2.1
              kin.chain.getNrOfSegments).2).position.z
        ∧ r.1.robot_state_.O_T_EE ⟨3, by decide⟩ = 0
        ∧ r.1.robot_state_.O_T_EE ⟨7, by decide⟩ = 0
        ∧ r.1.robot_state_.O_T_EE ⟨11, by decide⟩ = 0
        ∧ r.1.robot_state_.O_T_EE ⟨15, by decide⟩ = 1) := by
  refine ⟨_, updateRobotStateJoints_eq ext s kdl kin jnt_pos jnt_vel jnt_eff hkdl hnd hreg h7
    hp hv he hbp hbv hbe, ?_⟩
  intro hfk
  simp only [tipPose_solved ext kdl kin _ hfk]
  exact poseToO_T_EE_layout _

/-- C8 (amended) exercised on the ready object inside a cycle. -/
theorem updateRobotStateJoints_column_major_witness :
    ∃ r, updateRobotStateJoints demoExt cycleSim (List.replicate 7 0) (List.replicate 7 0)
        (List.replicate 7 0) = some r
      ∧ r.1.robot_state_.O_T_EE ⟨12, by decide⟩ = 1
      ∧ r.1.robot_state_.O_T_EE ⟨3, by decide⟩ = 0 := by
  obtain ⟨r, hr, h⟩ := updateRobotStateJoints_column_major demoExt cycleSim ⟨chainPanda⟩
    ⟨chainPanda, saveJointNames chainPanda.segments⟩ (List.replicate 7 0) (List.replicate 7 0)
    (List.replicate 7 0) (by decide) (by decide) (by decide) (by decide) (by decide)
    (by decide) (by decide) (by decide) (by decide) (by decide)
  have hr2 := updateRobotStateJoints_eq demoExt cycleSim ⟨chainPanda⟩
    ⟨chainPanda, saveJointNames chainPanda.segments⟩ (List.replicate 7 0) (List.replicate 7 0)
    (List.replicate 7 0) (by decide) (by decide) (by decide) (by decide) (by decide)
    (by decide) (by decide) (by decide) (by decide) (by decide)
  rw [hr2] at hr
  cases hr
  have hfk := h (by decide)
  exact ⟨_, hr2, hfk.2.1.trans rfl, hfk.2.2.2.2.1⟩

/-! ## C9: the dynamics flags -/

/-- C9, as stated, fails: on the object initialised for the one-joint tip `panda_link1`
with all four flags set (solver present, tip registered, seven samples of each kind) the
cycle has no defined result, because the Jacobian loop reads 42 entries of a 6 x 1 storage;
with `robot_state_needed` cleared it still has none, because the mass-matrix loop reads 49
entries of a 1 x 1 storage; with `mass_calculation_needed` cleared as well it has one. -/
theorem readSim_undefined_below_seven_joints :
    shortSim.kdl_ = some ⟨chainShort⟩
      ∧ (shortSim.kinematic_chain_map_.map Prod.fst).Nodup
      ∧ ChainMap.find shortSim.kinematic_chain_map_ shortSim.tip_name_
          = some ⟨chainShort, ["panda_joint1"]⟩
      ∧ chainShort.getNrOfJoints = 1
      ∧ (shortSim.robot_state_needed = true ∧ shortSim.coriolis_calculation_needed = true
          ∧ shortSim.gravity_calculation_needed = true
          ∧ shortSim.mass_calculation_needed = true)
      ∧ (readSim demoExt shortSim samplePos sampleVel sampleEff 1).isSome = false
      ∧ (readSim demoExt { shortSim with robot_state_needed := false }
          samplePos sampleVel sampleEff 1).isSome = false
      ∧ (readSim demoExt
          { shortSim with robot_state_needed := false, mass_calculation_needed := false }
          samplePos sampleVel sampleEff 1).isSome = true := by
  refine ⟨by decide, by decide, by decide, by decide, by decide, by decide, by decide,
    by decide⟩

/-- C9 (amended): on an object on which the cycle has defined behaviour (distinct keys, the
configured tip registered with a chain of N joints, a solver present, N at most 7 and equal
to 7 whenever `robot_state_needed` or `mass_calculation_needed` is set, since their loops run
over all 42 and 49 array entries, at least N samples of each kind) one cycle succeeds and
afterwards `q`, `dq`, `tau_J` equal the raw samples at every index below N, which are exactly the
joint values handed to the solver; each of gravity, Coriolis and mass matrix holds the
solver's result at those values (and velocities, for Coriolis) when its own flag is set and
its value from before the cycle when its flag is clear, whatever the other flags are. -/
theorem readSim_dynamics_flags (ext : External) (s : PandaRobotHWSim) (kdl : KDLMethods)
    (kin : Kinematics) (pos vel eff : List ℚ) (now : ℚ)
    (hkdl : s.kdl_ = some kdl)
    (hnd : (s.kinematic_chain_map_.map Prod.fst).Nodup)
    (hreg : ChainMap.find s.kinematic_chain_map_ s.tip_name_ = some kin)
    (h7 : kin.chain.getNrOfJoints ≤ 7)
    (hJ : s.robot_state_needed = true → 7 ≤ kin.chain.getNrOfJoints)
    (hM : s.mass_calculation_needed = true → 7 ≤ kin.chain.getNrOfJoints)
    (hp : kin.chain.getNrOfJoints ≤ pos.length)
    (hv : kin.chain.getNrOfJoints ≤ vel.length)
    (he : kin.chain.getNrOfJoints ≤ eff.length) :
    ∃ s', readSim ext s pos vel eff now = some s'
      ∧ (∀ i, i < kin.chain.getNrOfJoints →
          Arr.read s'.robot_state_.q i = pos[i]?
            ∧ Arr.read s'.robot_state_.dq i = vel[i]?
            ∧ Arr.read s'.robot_state_.tau_J i = eff[i]?
            ∧ (pos.take kin.chain.getNrOfJoints)[i]? = Arr.read s'.robot_state_.q i
            ∧ (vel.take kin.chain.getNrOfJoints)[i]? = Arr.read s'.robot_state_.dq i)
      ∧ (s.gravity_calculation_needed = true → ∀ i, i < kin.chain.getNrOfJoints →
          Arr.read s'.gravity_ i =
            Arr.read (ext.JntToGravity kdl.chain_ (pos.take kin.chain.getNrOfJoints)
              kin.chain.getNrOfJoints) i)
      ∧ (s.gravity_calculation_needed = false → s'.gravity_ = s.gravity_)
      ∧ (s.coriolis_calculation_needed = true → ∀ i, i < kin.chain.getNrOfJoints →
          Arr.read s'.coriolis_ i =
            Arr.read (ext.JntToCoriolis kdl.chain_ (pos.take kin.chain.getNrOfJoints)
              (vel.take kin.chain.getNrOfJoints) kin.chain.getNrOfJoints) i)
      ∧ (s.coriolis_calculation_needed = false → s'.coriolis_ = s.coriolis_)
      ∧ (s.mass_calculation_needed = true → ∀ i, i < 49 →
          Arr.read s'.mass_matrix_ i =
            Arr.read (ext.JntToMass kdl.chain_ (pos.take kin.chain.getNrOfJoints)
              kin.chain.getNrOfJoints) i)
      ∧ (s.mass_calculation_needed = false → s'.mass_matrix_ = s.mass_matrix_) := by
  obtain ⟨s', hs, hrs, -, hcor, hgrav, hmass, -⟩ := readSim_fields ext s kdl kin pos vel eff
    now hkdl hnd hreg h7 hJ hM hp hv he
  refine ⟨s', hs, ?_, ?_, ?_, ?_, ?_, ?_, ?_⟩
  · intro i hi
    have hq : Arr.read s'.robot_state_.q i = pos[i]? := by
      rw [hrs]; exact read_prefix_sample pos _ _ i hi h7 hp
    have hdq : Arr.read s'.robot_state_.dq i = vel[i]? := by
      rw [hrs]; exact read_prefix_sample vel _ _ i hi h7 hv
    have htau : Arr.read s'.robot_state_.tau_J i = eff[i]? := by
      rw [hrs]; exact read_prefix_sample eff _ _ i hi h7 he
    refine ⟨hq, hdq, htau, ?_, ?_⟩
    · rw [hq, List.getElem?_take, if_pos hi]
    · rw [hdq, List.getElem?_take, if_pos hi]
  · intro hf i hi
    rw [hgrav, hf, if_pos rfl]
    exact read_copiedPrefix _ _ _ i hi (le_refl _) h7
  · intro hf
    rw [hgrav, hf]; rfl
  · intro hf i hi
    rw [hcor, hf, if_pos rfl]
    exact read_copiedPrefix _ _ _ i hi (le_refl _) h7
  · intro hf
    rw [hcor, hf]; rfl
  · intro hf i hi
    have h49 : 49 ≤ kin.chain.getNrOfJoints * kin.chain.getNrOfJoints :=
      Nat.mul_le_mul (hM hf) (hM hf)
    rw [hmass, hf, if_pos rfl]
    exact read_copiedPrefix _ _ 49 i hi h49 (le_refl _)
  · intro hf
    rw [hmass, hf]; rfl

/-- C9 (amended) exercised on the ready seven-joint object with all flags set. -/
theorem readSim_dynamics_flags_witness :
    ∃ s', readSim demoExt readySim samplePos sampleVel sampleEff 1 = some s'
      ∧ Arr.read s'.robot_state_.q 6 = some 7
      ∧ Arr.read s'.gravity_ 2 =
          Arr.read (demoExt.JntToGravity chainPanda (samplePos.take 7) 7) 2 := by
  obtain ⟨s', hs, hq, hg, -⟩ := readSim_dynamics_flags demoExt readySim ⟨chainPanda⟩
    ⟨chainPanda, saveJointNames chainPanda.segments⟩ samplePos sampleVel sampleEff 1
    (by decide) (by decide) (by decide) (by decide) (by decide) (by decide) (by decide)
    (by decide) (by decide)
  exact ⟨s', hs, (hq 6 (by decide)).1, hg (by decide) 2 (by decide)⟩


end PandaHwGazebo
